import Mathlib

/-!
# NickServ DROP / FDROP / VERIFY / FVERIFY / RESETPASS and GroupServ SET GROUPNAME (atheme)

A shallow embedding of `modules/nickserv/drop.c`, `modules/nickserv/verify.c`,
`modules/nickserv/resetpass.c` and `modules/groupserv/set_groupname.c`.

* The account registry is a heap: a list of slots, a pointer is a slot index, a disposed
  object leaves an empty slot behind (pointers of the other objects do not move).
* A command takes the registry and returns the new registry together with the trace of the
  calls it made to the outside (reports to the user, log lines, hooks).
* Collaborators that live in libathemecore (password check, challenge derivation, quota,
  privilege tables, constants of the headers) are fields of `Env`.
-/

namespace Atheme

/-! ## C strings -/

/-- The libc `tolower` in the C locale, on a list of characters. -/
def lowerChars (s : List Char) : List Char := s.map Char.toLower

/-- The libc `strcmp`: zero exactly on equal strings, otherwise the sign of the order. -/
def strcmp (a b : String) : Int :=
  if a.data = b.data then 0 else if a.data < b.data then -1 else 1

/-- The libc `strcasecmp`: `strcmp` after folding both arguments to lower case. -/
def strcasecmp (a b : String) : Int :=
  if lowerChars a.data = lowerChars b.data then 0
  else if lowerChars a.data < lowerChars b.data then -1 else 1

/-- The complement `~m` of an `unsigned int` (32 bits). -/
def lnot32 (m : Nat) : Nat := 2 ^ 32 - 1 - m % 2 ^ 32

/-! ## Data model -/

/-- Fault codes of `command_fail`. -/
inductive cmd_faultcode_t
  | fault_needmoreparams
  | fault_badparams
  | fault_nosuch_target
  | fault_authfail
  | fault_noprivs
  | fault_toomany
  | fault_nochange
  | fault_internalerror
  deriving DecidableEq, Repr

/-- Log categories of `logcommand`. -/
inductive loglevel_t
  | CMDLOG_ADMIN
  | CMDLOG_REGISTER
  | CMDLOG_SET
  | LG_REGISTER
  deriving DecidableEq, Repr

/-- Flood weights of `command_add_flood`. -/
inductive flood_t
  | FLOOD_MODERATE
  deriving DecidableEq, Repr

/-- An account (`myuser_t`), with the fields the commands read or write. -/
structure myuser_t where
  /-- The field `entity(mu)->name`. -/
  name : String
  /-- The field `mu->pass`. -/
  pass : String
  /-- The field `mu->email`. -/
  email : String
  /-- The field `mu->flags`, an `unsigned int`. -/
  flags : Nat
  /-- The metadata entries of the object, key and value. -/
  metadata : List (String × String)
  /-- The nicks of `mu->nicks`, in list order. -/
  nicks : List String
  /-- The sessions of `mu->logins`, in list order. -/
  logins : List String
  deriving DecidableEq, Repr

/-- A group (`mygroup_t`). -/
structure mygroup_t where
  /-- The field `entity(mg)->name`. -/
  name : String
  /-- The field `mg->flags`. -/
  flags : Nat
  /-- The metadata entries of the object. -/
  metadata : List (String × String)
  deriving DecidableEq, Repr

/-- The entity store: one heap of accounts and one of groups. -/
structure State where
  /-- Account slots; `none` is a disposed object. -/
  myusers : List (Option myuser_t)
  /-- Group slots. -/
  mygroups : List (Option mygroup_t)
  deriving DecidableEq, Repr

/-- The source of a command (`struct sourceinfo`). -/
structure sourceinfo where
  /-- The field `si->smu`: the account the source is logged in to. -/
  smu : Option Nat
  /-- The field `si->su`: the nick of the user who sent the command. -/
  su : Option String
  /-- The names bound in `si->service->commands`. -/
  commands : List String
  deriving DecidableEq, Repr

/-- One call a command makes to the outside. -/
inductive Event
  | command_fail (fault : cmd_faultcode_t) (msg : String)
  | command_success_nodata (msg : String)
  | bad_password (mu : Nat)
  | command_add_flood (amount : flood_t)
  | logcommand (level : List loglevel_t) (msg : String)
  | wallops (msg : String)
  | hook_call_user_drop (mu : Nat)
  | holdnick_sts (nick : String)
  | ircd_on_login (u : String) (mu : Nat)
  | hook_call_user_verify_register (mu : Nat) (mn : Option Nat)
  deriving DecidableEq, Repr

/-- The collaborators and header constants the modules are compiled against. -/
structure Env where
  /-- The setting `nicksvs.no_nick_ownership`. -/
  no_nick_ownership : Bool
  /-- The setting `ircd->uses_rcommand`. -/
  uses_rcommand : Bool
  /-- The text `nicksvs.me->disp`. -/
  nicksvs_disp : String
  /-- The constant `BUFSIZE`. -/
  BUFSIZE : Nat
  /-- The flag `MU_HOLD`. -/
  MU_HOLD : Nat
  /-- The flag `MU_WAITAUTH`. -/
  MU_WAITAUTH : Nat
  /-- The flag `MU_NOPASSWORD`. -/
  MU_NOPASSWORD : Nat
  /-- The format `STR_INSUFFICIENT_PARAMS`, applied to its argument. -/
  STR_INSUFFICIENT_PARAMS : String → String
  /-- The format `STR_INVALID_PARAMS`, applied to its argument. -/
  STR_INVALID_PARAMS : String → String
  /-- The privilege name `PRIV_ADMIN`. -/
  PRIV_ADMIN : String
  /-- The privilege name `PRIV_MARK`. -/
  PRIV_MARK : String
  /-- Whether a stored name and a looked-up name are the same key of the registry. -/
  name_match : String → String → Bool
  /-- The function `verify_password`. -/
  verify_password : myuser_t → String → Bool
  /-- The function `is_soper`. -/
  is_soper : myuser_t → Bool
  /-- The function `create_weak_challenge`; `none` is a null result. -/
  create_weak_challenge : sourceinfo → String → Option String
  /-- The function `email_within_limits`, which counts over the registry. -/
  email_within_limits : State → String → Bool
  /-- The function `get_source_name`. -/
  get_source_name : sourceinfo → String
  /-- The function `get_oper_name`. -/
  get_oper_name : sourceinfo → String
  /-- The function `has_priv`. -/
  has_priv : sourceinfo → String → Bool
  /-- The function `random_string`, at the length asked for. -/
  random_string : Nat → String
  /-- The text of `number_to_string(time(NULL))`. -/
  time_string : String
  /-- The function `groupacs_sourceinfo_has_flag` at `GA_FOUNDER`. -/
  groupacs_founder : mygroup_t → sourceinfo → Bool
  /-- The libc function `snprintf`: the text it leaves in a buffer of the given size in
  bytes, for the formatted text given. -/
  snprintf : Nat → String → String
  /-- The function `bad_password`: the account as the penalty hook leaves it. -/
  bad_password : sourceinfo → myuser_t → myuser_t

/-! ## The heap -/

/-- The object a pointer refers to, if the slot is live. -/
def deref {α : Type} : List (Option α) → Nat → Option α
  | [], _ => none
  | x :: _, 0 => x
  | _ :: t, n + 1 => deref t n

/-- Overwrite the slot of a pointer. -/
def store {α : Type} : List (Option α) → Nat → Option α → List (Option α)
  | [], _, _ => []
  | _ :: t, 0, v => v :: t
  | x :: t, n + 1, v => x :: store t n v

/-- The first live object that satisfies `pred`, with its pointer. -/
def heap_find {α : Type} (pred : α → Bool) : List (Option α) → Option (Nat × α)
  | [] => none
  | none :: t => (heap_find pred t).map (fun r => (r.1 + 1, r.2))
  | some a :: t =>
    if pred a then some (0, a) else (heap_find pred t).map (fun r => (r.1 + 1, r.2))

/-! ## Registry and metadata operations -/

/-- Modelled from the spec: `Get(key)` of the metadata mapping of an entity
(`metadata_find` of libathemecore); the value of the first entry under `key`. -/
def metadata_find (md : List (String × String)) (key : String) : Option String :=
  (md.find? (fun e => e.1 == key)).map (fun e => e.2)

/-- Modelled from the spec: `Delete(key)` of the metadata mapping of an entity
(`metadata_delete` of libathemecore); no entry under `key` is left. -/
def metadata_delete (md : List (String × String)) (key : String) : List (String × String) :=
  md.filter (fun e => !(e.1 == key))

/-- Modelled from the spec: `Set(key, value)` of the metadata mapping of an entity
(`metadata_add` of libathemecore); the entry under `key` is replaced. -/
def metadata_add (md : List (String × String)) (key value : String) : List (String × String) :=
  (key, value) :: metadata_delete md key

/-- Modelled from the spec: `FindByName(name)` of the entity store (`myuser_find` of
libathemecore); the account registered under `name`, with its pointer. -/
def myuser_find (env : Env) (st : State) (name : String) : Option (Nat × myuser_t) :=
  heap_find (fun mu => env.name_match mu.name name) st.myusers

/-- Modelled from the spec: `FindByAlias(alias)` of the entity store (`mynick_find` of
libathemecore); the account that has a nick registered under `name`, with its pointer. -/
def mynick_find (env : Env) (st : State) (name : String) : Option (Nat × myuser_t) :=
  heap_find (fun mu => mu.nicks.any (fun n => env.name_match n name)) st.myusers

/-- Modelled from the spec: `FindByName`/`FindByAlias` of the entity store
(`myuser_find_ext` of libathemecore); by account name when nicks are not owned, otherwise
the owner of the nick. -/
def myuser_find_ext (env : Env) (st : State) (name : String) : Option (Nat × myuser_t) :=
  if env.no_nick_ownership then myuser_find env st name else mynick_find env st name

/-- Modelled from the spec: `Destroy(entity)` of the entity store (`atheme_object_dispose`
of libathemecore on an account); the slot is emptied, and the nicks go with the object. -/
def atheme_object_dispose (st : State) (p : Nat) : State :=
  { st with myusers := store st.myusers p none }

/-- Write an account object back through its pointer. -/
def myuser_write (st : State) (p : Nat) (mu : myuser_t) : State :=
  { st with myusers := store st.myusers p (some mu) }

/-- Modelled from the spec: the e-mail write of the entity store (`myuser_set_email` of
libathemecore). -/
def myuser_set_email (mu : myuser_t) (email : String) : myuser_t :=
  { mu with email := email }

/-- The lookup `command_find` in a command list. -/
def command_find (commands : List String) (name : String) : Bool :=
  commands.contains name

/-! ## nickserv/drop -/

/-- The function `cmd_ns_drop_func` of `modules/nickserv/drop.c`. The store returned is
what the body of the function wrote; the call of the penalty hook `bad_password`, the last
statement of its path, stands in the trace, and `drop_final_store` adds its write. -/
def cmd_ns_drop_func (env : Env) (si : sourceinfo) (st : State) (parv : List String) :
    State × List Event :=
  match parv[0]?, parv[1]? with
  | some acc, some pass =>
    match myuser_find env st acc with
    | none =>
      if (!env.no_nick_ownership) && ((mynick_find env st acc).isSome
          && command_find si.commands "UNGROUP") then
        (st, [Event.command_fail .fault_nosuch_target
          ("\x02" ++ acc ++ "\x02 is a grouped nick, use " ++ "UNGROUP" ++ " to remove it.")])
      else
        (st, [Event.command_fail .fault_nosuch_target
          ("\x02" ++ acc ++ "\x02 is not registered.")])
    | some (p, mu) =>
      if (metadata_find mu.metadata "private:freeze:freezer").isSome then
        (st, [Event.command_fail .fault_authfail
          (if env.no_nick_ownership then
            "You cannot login as \x02" ++ mu.name ++ "\x02 because the account has been frozen."
          else
            "You cannot identify to \x02" ++ mu.name
              ++ "\x02 because the nickname has been frozen.")])
      else if !env.verify_password mu pass then
        (st, [Event.command_fail .fault_authfail
            ("Authentication failed. Invalid password for \x02" ++ mu.name ++ "\x02."),
          Event.bad_password p])
      else if (!env.no_nick_ownership) && (decide (mu.nicks.length > 1)
          && command_find si.commands "UNGROUP") then
        (st, [Event.command_fail .fault_noprivs
          ("Account \x02" ++ mu.name ++ "\x02 has " ++ toString (mu.nicks.length - 1)
            ++ " other nick(s) grouped to it, remove those first.")])
      else if env.is_soper mu then
        (st, [Event.command_fail .fault_noprivs
          ("The nickname \x02" ++ acc
            ++ "\x02 belongs to a services operator; it cannot be dropped.")])
      else if mu.flags &&& env.MU_HOLD ≠ 0 then
        (st, [Event.command_fail .fault_noprivs
          ("The account \x02" ++ acc ++ "\x02 is held; it cannot be dropped.")])
      else
        match env.create_weak_challenge si mu.name with
        | none =>
          (st, [Event.command_fail .fault_internalerror "Failed to create challenge"])
        | some challenge =>
          match parv[2]? with
          | none =>
            let fullcmd := env.snprintf env.BUFSIZE
              ("/" ++ (if env.uses_rcommand = false then "msg " else "") ++ env.nicksvs_disp
                ++ " DROP " ++ mu.name ++ " " ++ pass ++ " " ++ challenge)
            (st, [Event.command_success_nodata
                ("This is a friendly reminder that you are about to \x02destroy\x02 "
                  ++ "the account \x02" ++ mu.name ++ "\x02."),
              Event.command_success_nodata
                ("To avoid accidental use of this command, this operation has to "
                  ++ "be confirmed. Please confirm by replying with \x02" ++ fullcmd
                  ++ "\x02")])
          | some key =>
            if strcmp challenge key ≠ 0 then
              (st, [Event.command_fail .fault_badparams ("Invalid key for " ++ "DROP" ++ ".")])
            else
              (atheme_object_dispose st p,
                [Event.command_add_flood .FLOOD_MODERATE,
                  Event.logcommand [.CMDLOG_REGISTER] ("DROP: \x02" ++ mu.name ++ "\x02"),
                  Event.hook_call_user_drop p]
                ++ (if !env.no_nick_ownership then [Event.holdnick_sts mu.name] else [])
                ++ [Event.command_success_nodata
                  ("The account \x02" ++ mu.name ++ "\x02 has been dropped.")])
  | _, _ =>
    (st, [Event.command_fail .fault_needmoreparams (env.STR_INSUFFICIENT_PARAMS "DROP"),
      Event.command_fail .fault_needmoreparams "Syntax: DROP <account> <password>"])

/-- The function `cmd_ns_fdrop_func` of `modules/nickserv/drop.c`. -/
def cmd_ns_fdrop_func (env : Env) (si : sourceinfo) (st : State) (parv : List String) :
    State × List Event :=
  match parv[0]? with
  | none =>
    (st, [Event.command_fail .fault_needmoreparams (env.STR_INSUFFICIENT_PARAMS "FDROP"),
      Event.command_fail .fault_needmoreparams "Syntax: FDROP <account>"])
  | some acc =>
    match myuser_find env st acc with
    | none =>
      if (!env.no_nick_ownership) && ((mynick_find env st acc).isSome
          && command_find si.commands "FUNGROUP") then
        (st, [Event.command_fail .fault_nosuch_target
          ("\x02" ++ acc ++ "\x02 is a grouped nick, use " ++ "FUNGROUP" ++ " to remove it.")])
      else
        (st, [Event.command_fail .fault_nosuch_target
          ("\x02" ++ acc ++ "\x02 is not registered.")])
    | some (p, mu) =>
      if env.is_soper mu then
        (st, [Event.command_fail .fault_noprivs
          ("The nickname \x02" ++ acc
            ++ "\x02 belongs to a services operator; it cannot be dropped.")])
      else if mu.flags &&& env.MU_HOLD ≠ 0 then
        (st, [Event.command_fail .fault_noprivs
          ("The account \x02" ++ acc ++ "\x02 is held; it cannot be dropped.")])
      else
        (atheme_object_dispose st p,
          [Event.wallops (env.get_oper_name si ++ " dropped the account \x02" ++ mu.name
              ++ "\x02"),
            Event.logcommand [.CMDLOG_ADMIN, .LG_REGISTER] ("FDROP: \x02" ++ mu.name ++ "\x02"),
            Event.hook_call_user_drop p]
          ++ (if !env.no_nick_ownership then mu.nicks.map Event.holdnick_sts else [])
          ++ [Event.command_success_nodata
            ("The account \x02" ++ mu.name ++ "\x02 has been dropped.")])

/-! ## nickserv/verify -/

/-- The report of both commands for an account with no pending record. -/
def not_awaiting (nick : String) : Event :=
  Event.command_fail .fault_badparams ("\x02" ++ nick ++ "\x02 is not awaiting authorization.")

/-- The function `ns_cmd_verify` of `modules/nickserv/verify.c`; `none` is the read of
`md->value` through a null `md`. The `mn` of the verify hook is given by the owner of the
nick that `mynick_find` returns. -/
def ns_cmd_verify (env : Env) (si : sourceinfo) (st : State) (parv : List String) :
    Option (State × List Event) :=
  match parv[0]?, parv[1]?, parv[2]? with
  | some op, some nick, some key =>
    match myuser_find env st nick with
    | none =>
      some (st, [Event.command_fail .fault_nosuch_target
        ("\x02" ++ nick ++ "\x02 is not registered.")])
    | some (p, mu) =>
      if ¬ si.smu = some p then
        some (st, [Event.command_fail .fault_badparams
          "Please log in before attempting to verify your registration."])
      else if strcasecmp op "REGISTER" = 0 then
        if mu.flags &&& env.MU_WAITAUTH = 0 then some (st, [not_awaiting nick])
        else
          match metadata_find mu.metadata "private:verify:register:key" with
          | none => some (st, [not_awaiting nick])
          | some value =>
            if strcasecmp key value = 0 then
              let mu1 : myuser_t := { mu with flags := mu.flags &&& lnot32 env.MU_WAITAUTH }
              let mu2 : myuser_t := { mu1 with
                metadata := metadata_delete
                  (metadata_delete mu1.metadata "private:verify:register:key")
                  "private:verify:register:timestamp" }
              let st2 := myuser_write st p mu2
              some (st2,
                [Event.logcommand [.CMDLOG_SET]
                    ("VERIFY:REGISTER: \x02" ++ env.get_source_name si ++ "\x02 (email: \x02"
                      ++ mu1.email ++ "\x02)"),
                  Event.command_success_nodata
                    ("\x02" ++ mu2.name ++ "\x02 has now been verified."),
                  Event.command_success_nodata
                    ("Thank you for verifying your e-mail address! You have taken steps in "
                      ++ "ensuring that your registrations are not exploited.")]
                ++ mu2.logins.map (fun u => Event.ircd_on_login u p)
                ++ [Event.hook_call_user_verify_register p
                  ((mynick_find env st2 mu2.name).map (fun r => r.1))])
            else
              some (st,
                [Event.logcommand [.CMDLOG_SET]
                    ("failed VERIFY REGISTER \x02" ++ env.get_source_name si ++ "\x02, \x02"
                      ++ mu.email ++ "\x02 (invalid key)"),
                  Event.command_fail .fault_badparams
                    ("Verification failed. Invalid key for \x02" ++ mu.name ++ "\x02.")])
      else if strcasecmp op "EMAILCHG" = 0 then
        match metadata_find mu.metadata "private:verify:emailchg:key" with
        | none => some (st, [not_awaiting nick])
        | some value =>
          if strcasecmp key value = 0 then
            match metadata_find mu.metadata "private:verify:emailchg:newemail" with
            | none => none
            | some newemail =>
              if !env.email_within_limits st newemail then
                some (st, [Event.command_fail .fault_toomany
                  ("\x02" ++ newemail ++ "\x02 has too many accounts registered.")])
              else
                let mu1 := myuser_set_email mu newemail
                let mu2 : myuser_t := { mu1 with
                  metadata := metadata_delete
                    (metadata_delete
                      (metadata_delete mu1.metadata "private:verify:emailchg:key")
                      "private:verify:emailchg:newemail")
                    "private:verify:emailchg:timestamp" }
                some (myuser_write st p mu2,
                  [Event.logcommand [.CMDLOG_SET]
                      ("VERIFY:EMAILCHG: \x02" ++ env.get_source_name si
                        ++ "\x02 (email: \x02" ++ mu1.email ++ "\x02)"),
                    Event.command_success_nodata
                      ("\x02" ++ mu2.email ++ "\x02 has now been verified.")])
          else
            some (st,
              [Event.logcommand [.CMDLOG_SET]
                  ("failed VERIFY EMAILCHG \x02" ++ env.get_source_name si ++ "\x02, \x02"
                    ++ mu.email ++ "\x02 (invalid key)"),
                Event.command_fail .fault_badparams
                  ("Verification failed. Invalid key for \x02" ++ mu.name ++ "\x02.")])
      else
        some (st,
          [Event.command_fail .fault_badparams "Invalid operation specified for \x02VERIFY\x02.",
            Event.command_fail .fault_badparams
              "Please double-check your verification e-mail."])
  | _, _, _ =>
    some (st,
      [Event.command_fail .fault_needmoreparams (env.STR_INSUFFICIENT_PARAMS "VERIFY"),
        Event.command_fail .fault_needmoreparams
          "Syntax: VERIFY <operation> <account> <key>"])

/-- The function `ns_cmd_fverify` of `modules/nickserv/verify.c`; `none` is the read of
`md->value` through a null `md`. -/
def ns_cmd_fverify (env : Env) (_si : sourceinfo) (st : State) (parv : List String) :
    Option (State × List Event) :=
  match parv[0]?, parv[1]? with
  | some op, some nick =>
    match myuser_find_ext env st nick with
    | none =>
      some (st, [Event.command_fail .fault_nosuch_target
        ("\x02" ++ nick ++ "\x02 is not registered.")])
    | some (p, mu) =>
      if strcasecmp op "REGISTER" = 0 then
        if mu.flags &&& env.MU_WAITAUTH = 0
            ∨ metadata_find mu.metadata "private:verify:register:key" = none then
          some (st, [not_awaiting nick])
        else
          let mu1 : myuser_t := { mu with flags := mu.flags &&& lnot32 env.MU_WAITAUTH }
          let mu2 : myuser_t := { mu1 with
            metadata := metadata_delete
              (metadata_delete mu1.metadata "private:verify:register:key")
              "private:verify:register:timestamp" }
          let st2 := myuser_write st p mu2
          some (st2,
            [Event.logcommand [.CMDLOG_REGISTER]
                ("FVERIFY:REGISTER: \x02" ++ mu1.name ++ "\x02 (email: \x02"
                  ++ mu1.email ++ "\x02)"),
              Event.command_success_nodata
                ("\x02" ++ mu2.name ++ "\x02 has now been verified.")]
            ++ mu2.logins.map (fun u => Event.ircd_on_login u p)
            ++ [Event.hook_call_user_verify_register p
              ((mynick_find env st2 mu2.name).map (fun r => r.1))])
      else if strcasecmp op "EMAILCHG" = 0 then
        if metadata_find mu.metadata "private:verify:emailchg:key" = none then
          some (st, [not_awaiting nick])
        else
          match metadata_find mu.metadata "private:verify:emailchg:newemail" with
          | none => none
          | some newemail =>
            let mu1 := myuser_set_email mu newemail
            let mu2 : myuser_t := { mu1 with
              metadata := metadata_delete
                (metadata_delete
                  (metadata_delete mu1.metadata "private:verify:emailchg:key")
                  "private:verify:emailchg:newemail")
                "private:verify:emailchg:timestamp" }
            some (myuser_write st p mu2,
              [Event.logcommand [.CMDLOG_REGISTER]
                  ("FVERIFY:EMAILCHG: \x02" ++ mu1.name ++ "\x02 (email: \x02"
                    ++ mu1.email ++ "\x02)"),
                Event.command_success_nodata
                  ("\x02" ++ mu2.email ++ "\x02 has now been verified.")])
      else
        some (st,
          [Event.command_fail .fault_badparams
              "Invalid operation specified for \x02FVERIFY\x02.",
            Event.command_fail .fault_badparams "Valid operations are REGISTER and EMAILCHG."])
  | _, _ =>
    some (st,
      [Event.command_fail .fault_needmoreparams (env.STR_INSUFFICIENT_PARAMS "FVERIFY"),
        Event.command_fail .fault_needmoreparams "Syntax: FVERIFY <operation> <account>"])

/-! ## nickserv/resetpass -/

/-- Modelled from the spec: `FindByName`/`FindByAlias` of the entity store
(`myuser_find_by_nick` of libathemecore); by account name when nicks are not owned,
otherwise the owner of the nick. -/
def myuser_find_by_nick (env : Env) (st : State) (name : String) : Option (Nat × myuser_t) :=
  if env.no_nick_ownership then myuser_find env st name else mynick_find env st name

/-- Modelled from the spec: the credential write of the entity store (`set_password` of
libathemecore); the new credential is persisted in the account and nothing else of the
account is touched. -/
def set_password (mu : myuser_t) (password : String) : myuser_t :=
  { mu with pass := password }

/-- The function `ns_cmd_resetpass` of `modules/nickserv/resetpass.c`. The local function
`done` is the part of the body after the mark test, run with the calls made before it. -/
def ns_cmd_resetpass (env : Env) (si : sourceinfo) (st : State) (parv : List String) :
    State × List Event :=
  match parv[0]? with
  | none =>
    (st, [Event.command_fail .fault_needmoreparams (env.STR_INVALID_PARAMS "RESETPASS"),
      Event.command_fail .fault_needmoreparams "Syntax: RESETPASS <account>"])
  | some name =>
    match myuser_find_by_nick env st name with
    | none =>
      (st, [Event.command_fail .fault_nosuch_target
        ("\x02" ++ name ++ "\x02 is not registered.")])
    | some (p, mu) =>
      if env.is_soper mu && !env.has_priv si env.PRIV_ADMIN then
        (st, [Event.logcommand [.CMDLOG_ADMIN]
            ("failed RESETPASS \x02" ++ name ++ "\x02 (is SOPER)"),
          Event.command_fail .fault_badparams
            ("\x02" ++ name ++ "\x02 belongs to a services operator; you need "
              ++ env.PRIV_ADMIN ++ " privilege to reset the password.")])
      else
        let done : List Event → State × List Event := fun before =>
          let newpass := env.random_string 12
          let mu1 : myuser_t :=
            { mu with metadata := metadata_delete mu.metadata "private:setpass:key" }
          let mu2 : myuser_t :=
            { mu1 with
              metadata := metadata_add mu1.metadata "private:sendpass:sender"
                (env.get_oper_name si) }
          let mu3 : myuser_t :=
            { mu2 with
              metadata := metadata_add mu2.metadata "private:sendpass:timestamp"
                env.time_string }
          let mu4 := set_password mu3 newpass
          let changed := Event.command_success_nodata
            ("The password for \x02" ++ mu4.name ++ "\x02 has been changed to \x02"
              ++ newpass ++ "\x02.")
          if mu4.flags &&& env.MU_NOPASSWORD ≠ 0 then
            (myuser_write st p { mu4 with flags := mu4.flags &&& lnot32 env.MU_NOPASSWORD },
              before ++ [changed,
                Event.command_success_nodata
                  ("The \x02" ++ "NOPASSWORD" ++ "\x02 flag has been removed for account \x02"
                    ++ mu4.name ++ "\x02.")])
          else
            (myuser_write st p mu4, before ++ [changed])
        match metadata_find mu.metadata "private:mark:setter" with
        | some value =>
          if env.has_priv si env.PRIV_MARK then
            done
              [Event.wallops (env.get_oper_name si
                  ++ " reset the password for the \x02MARKED\x02 account " ++ mu.name ++ "."),
                Event.logcommand [.CMDLOG_ADMIN]
                  ("RESETPASS: \x02" ++ mu.name ++ "\x02 (overriding mark by \x02" ++ value
                    ++ "\x02)"),
                Event.command_success_nodata
                  ("Overriding MARK placed by " ++ value ++ " on the account " ++ mu.name
                    ++ ".")]
          else
            (st, [Event.logcommand [.CMDLOG_ADMIN]
                ("failed RESETPASS \x02" ++ mu.name ++ "\x02 (marked by \x02" ++ value
                  ++ "\x02)"),
              Event.command_fail .fault_badparams
                ("This operation cannot be performed on " ++ mu.name
                  ++ ", because the account has been marked by " ++ value ++ ".")])
        | none =>
          done
            [Event.wallops (env.get_oper_name si ++ " reset the password for the account "
                ++ mu.name),
              Event.logcommand [.CMDLOG_ADMIN] ("RESETPASS: \x02" ++ mu.name ++ "\x02")]

/-! ## groupserv/set_groupname -/

/-- Modelled from the spec: `FindByName(name)` of the entity store for groups
(`mygroup_find` of groupserv); the group registered under `name`, with its pointer. -/
def mygroup_find (env : Env) (st : State) (name : String) : Option (Nat × mygroup_t) :=
  heap_find (fun mg => env.name_match mg.name name) st.mygroups

/-- Modelled from the spec: `Rename(entity, newName)` of the entity store
(`mygroup_rename` of groupserv); the group behind `g` gets the new name in place. -/
def mygroup_rename (st : State) (g : Nat) (mg : mygroup_t) (newname : String) : State :=
  { st with mygroups := store st.mygroups g (some { mg with name := newname }) }

/-- The function `gs_cmd_set_groupname` of `modules/groupserv/set_groupname.c`; `parc` is
the length of `parv`. -/
def gs_cmd_set_groupname (env : Env) (si : sourceinfo) (st : State) (parv : List String) :
    State × List Event :=
  match parv with
  | [oldname, newname] =>
    if oldname.data.head? ≠ some '!' ∨ newname.data.head? ≠ some '!' then
      (st, [Event.command_fail .fault_badparams (env.STR_INVALID_PARAMS "GROUPNAME"),
        Event.command_fail .fault_badparams "Syntax: SET GROUPNAME <oldname> <newname>"])
    else
      match mygroup_find env st oldname with
      | none =>
        (st, [Event.command_fail .fault_nosuch_target
          ("The group \x02" ++ oldname ++ "\x02 does not exist.")])
      | some (g, mg) =>
        if !env.groupacs_founder mg si then
          (st, [Event.command_fail .fault_noprivs
            "You are not authorized to execute this command."])
        else if strcmp mg.name newname = 0 then
          (st, [Event.command_fail .fault_nochange
            ("The group name is already set to \x02" ++ newname ++ "\x02.")])
        else if (mygroup_find env st newname).isSome then
          (st, [Event.command_fail .fault_nochange
            ("The group \x02" ++ newname ++ "\x02 already exists.")])
        else
          (mygroup_rename st g mg newname,
            [Event.logcommand [.CMDLOG_REGISTER]
                ("SET:GROUPNAME: \x02" ++ oldname ++ "\x02 to \x02" ++ newname ++ "\x02"),
              Event.command_success_nodata
                ("The group \x02" ++ oldname ++ "\x02 has been renamed to \x02" ++ newname
                  ++ "\x02.")])
  | _ =>
    (st, [Event.command_fail .fault_needmoreparams (env.STR_INSUFFICIENT_PARAMS "GROUPNAME"),
      Event.command_fail .fault_needmoreparams "Syntax: SET GROUPNAME <oldname> <newname>"])

/-! ## Predicates of the statements -/

/-- The conditions under which self-service DROP goes through, as the command documents
them: both parameters are there, the name resolves, the account is not frozen, the password
verifies, no other nick blocks the drop, the account is neither of a services operator nor
held, a challenge was created, and the key is that challenge. -/
def drop_confirmed (env : Env) (si : sourceinfo) (st : State) (parv : List String)
    (p : Nat) (mu : myuser_t) : Prop :=
  ∃ acc pass key ch, parv[0]? = some acc ∧ parv[1]? = some pass ∧
    myuser_find env st acc = some (p, mu) ∧
    metadata_find mu.metadata "private:freeze:freezer" = none ∧
    env.verify_password mu pass = true ∧
    ¬ (env.no_nick_ownership = false ∧ 1 < mu.nicks.length ∧
        command_find si.commands "UNGROUP" = true) ∧
    env.is_soper mu = false ∧
    mu.flags &&& env.MU_HOLD = 0 ∧
    env.create_weak_challenge si mu.name = some ch ∧
    parv[2]? = some key ∧ key = ch

/-- Whether a trace holds a failure report (`command_fail`). -/
def reports_failure (evs : List Event) : Bool :=
  evs.any (fun e => match e with
    | Event.command_fail _ _ => true
    | _ => false)

/-- A command run succeeded: it returned, and its trace holds no failure report. -/
def succeeded (r : Option (State × List Event)) : Prop :=
  ∃ st evs, r = some (st, evs) ∧ reports_failure evs = false

/-- The account after a verified registration: `MU_WAITAUTH` cleared and the two records
of the pending registration deleted. -/
def register_done (env : Env) (mu : myuser_t) : myuser_t :=
  { mu with
    flags := mu.flags &&& lnot32 env.MU_WAITAUTH
    metadata := metadata_delete
      (metadata_delete mu.metadata "private:verify:register:key")
      "private:verify:register:timestamp" }

/-- The account after a verified e-mail change to `e`: the address replaced and the three
records of the pending change deleted. -/
def emailchg_done (mu : myuser_t) (e : String) : myuser_t :=
  { mu with
    email := e
    metadata := metadata_delete
      (metadata_delete
        (metadata_delete mu.metadata "private:verify:emailchg:key")
        "private:verify:emailchg:newemail")
      "private:verify:emailchg:timestamp" }

/-- The trace of a successful VERIFY REGISTER on the account `mu` behind the pointer `p`. -/
def verify_register_trace (env : Env) (si : sourceinfo) (st : State) (p : Nat)
    (mu : myuser_t) : List Event :=
  [Event.logcommand [.CMDLOG_SET]
      ("VERIFY:REGISTER: \x02" ++ env.get_source_name si ++ "\x02 (email: \x02"
        ++ mu.email ++ "\x02)"),
    Event.command_success_nodata ("\x02" ++ mu.name ++ "\x02 has now been verified."),
    Event.command_success_nodata
      ("Thank you for verifying your e-mail address! You have taken steps in "
        ++ "ensuring that your registrations are not exploited.")]
  ++ mu.logins.map (fun u => Event.ircd_on_login u p)
  ++ [Event.hook_call_user_verify_register p
    ((mynick_find env (myuser_write st p (register_done env mu)) mu.name).map (fun r => r.1))]

/-- The trace of a successful FVERIFY REGISTER on the account `mu` behind the pointer `p`. -/
def fverify_register_trace (env : Env) (st : State) (p : Nat) (mu : myuser_t) : List Event :=
  [Event.logcommand [.CMDLOG_REGISTER]
      ("FVERIFY:REGISTER: \x02" ++ mu.name ++ "\x02 (email: \x02" ++ mu.email ++ "\x02)"),
    Event.command_success_nodata ("\x02" ++ mu.name ++ "\x02 has now been verified.")]
  ++ mu.logins.map (fun u => Event.ircd_on_login u p)
  ++ [Event.hook_call_user_verify_register p
    ((mynick_find env (myuser_write st p (register_done env mu)) mu.name).map (fun r => r.1))]

/-- The account after RESETPASS has stored the new credential: the password replaced, the
pending set-password key deleted and the two send-password records written. -/
def resetpass_stored (env : Env) (si : sourceinfo) (mu : myuser_t) : myuser_t :=
  { mu with
    pass := env.random_string 12
    metadata := metadata_add
      (metadata_add (metadata_delete mu.metadata "private:setpass:key")
        "private:sendpass:sender" (env.get_oper_name si))
      "private:sendpass:timestamp" env.time_string }

/-- The account RESETPASS leaves behind: the stored credential, and `MU_NOPASSWORD` cleared
when it was set. -/
def resetpass_done (env : Env) (si : sourceinfo) (mu : myuser_t) : myuser_t :=
  if mu.flags &&& env.MU_NOPASSWORD ≠ 0 then
    { resetpass_stored env si mu with flags := mu.flags &&& lnot32 env.MU_NOPASSWORD }
  else resetpass_stored env si mu

/-- The success report of RESETPASS that carries the new credential. -/
def resetpass_changed (env : Env) (mu : myuser_t) : Event :=
  Event.command_success_nodata
    ("The password for \x02" ++ mu.name ++ "\x02 has been changed to \x02"
      ++ env.random_string 12 ++ "\x02.")

/-- The audit line of a RESETPASS that went through, with the mark wording when the account
carries a mark. -/
def resetpass_audit (mu : myuser_t) : Event :=
  Event.logcommand [.CMDLOG_ADMIN]
    (match metadata_find mu.metadata "private:mark:setter" with
      | some value =>
        "RESETPASS: \x02" ++ mu.name ++ "\x02 (overriding mark by \x02" ++ value ++ "\x02)"
      | none => "RESETPASS: \x02" ++ mu.name ++ "\x02")

/-- The calls of a RESETPASS that went through which come before the report of the new
credential: the wallops, the audit line and, on a marked account, the override report.
They are built from the name of the operator and the account, not from the credential. -/
def resetpass_before (oper : String) (mu : myuser_t) : List Event :=
  match metadata_find mu.metadata "private:mark:setter" with
  | some value =>
    [Event.wallops (oper ++ " reset the password for the \x02MARKED\x02 account " ++ mu.name
        ++ "."),
      resetpass_audit mu,
      Event.command_success_nodata
        ("Overriding MARK placed by " ++ value ++ " on the account " ++ mu.name ++ ".")]
  | none =>
    [Event.wallops (oper ++ " reset the password for the account " ++ mu.name),
      resetpass_audit mu]

/-- The calls of a RESETPASS that went through which come after the report of the new
credential: the report that the flag `nopassword` was removed, when it was set. -/
def resetpass_after (nopassword : Nat) (mu : myuser_t) : List Event :=
  if mu.flags &&& nopassword ≠ 0 then
    [Event.command_success_nodata
      ("The \x02" ++ "NOPASSWORD" ++ "\x02 flag has been removed for account \x02"
        ++ mu.name ++ "\x02.")]
  else []

/-- The trace of a RESETPASS that went through. -/
def resetpass_trace (env : Env) (si : sourceinfo) (mu : myuser_t) : List Event :=
  (match metadata_find mu.metadata "private:mark:setter" with
    | some value =>
      [Event.wallops (env.get_oper_name si
          ++ " reset the password for the \x02MARKED\x02 account " ++ mu.name ++ "."),
        resetpass_audit mu,
        Event.command_success_nodata
          ("Overriding MARK placed by " ++ value ++ " on the account " ++ mu.name ++ ".")]
    | none =>
      [Event.wallops (env.get_oper_name si ++ " reset the password for the account "
          ++ mu.name),
        resetpass_audit mu])
  ++ [resetpass_changed env mu]
  ++ (if mu.flags &&& env.MU_NOPASSWORD ≠ 0 then
      [Event.command_success_nodata
        ("The \x02" ++ "NOPASSWORD" ++ "\x02 flag has been removed for account \x02"
          ++ mu.name ++ "\x02.")]
    else [])

/-- The audit lines (`logcommand`) of a trace, in order. -/
def audit_events (evs : List Event) : List Event :=
  evs.filter (fun e => match e with
    | Event.logcommand _ _ => true
    | _ => false)

/-- The login and registration-verified hook calls of a trace, in order. -/
def hook_events (evs : List Event) : List Event :=
  evs.filter (fun e => match e with
    | Event.ircd_on_login _ _ => true
    | Event.hook_call_user_verify_register _ _ => true
    | _ => false)

/-- The trace of a successful VERIFY EMAILCHG to the address `e`. -/
def verify_emailchg_trace (env : Env) (si : sourceinfo) (e : String) : List Event :=
  [Event.logcommand [.CMDLOG_SET]
      ("VERIFY:EMAILCHG: \x02" ++ env.get_source_name si ++ "\x02 (email: \x02" ++ e
        ++ "\x02)"),
    Event.command_success_nodata ("\x02" ++ e ++ "\x02 has now been verified.")]

/-- The longest run of leading characters whose UTF-8 encoding fits in `n` bytes. -/
def take_bytes : Nat → List Char → List Char
  | _, [] => []
  | n, c :: cs => if c.utf8Size ≤ n then c :: take_bytes (n - c.utf8Size) cs else []

/-- A sample environment: exact-case names, the password is the stored one, the challenge
is the target name followed by a fixed suffix, a buffer keeps the characters that fit in
its size in bytes less one (the sample texts are shorter), the penalty hook writes
nothing. -/
def env0 : Env where
  no_nick_ownership := false
  uses_rcommand := false
  nicksvs_disp := "NickServ"
  BUFSIZE := 1024
  MU_HOLD := 1
  MU_WAITAUTH := 8
  MU_NOPASSWORD := 2048
  STR_INSUFFICIENT_PARAMS := fun c => "Insufficient parameters for \x02" ++ c ++ "\x02."
  STR_INVALID_PARAMS := fun c => "Invalid parameters for \x02" ++ c ++ "\x02."
  PRIV_ADMIN := "general:admin"
  PRIV_MARK := "user:mark"
  name_match := fun a b => a == b
  verify_password := fun mu p => mu.pass == p
  is_soper := fun mu => mu.name == "oper"
  create_weak_challenge := fun _ n => some (n ++ ":k")
  email_within_limits := fun _ e => !(e == "full@x")
  get_source_name := fun _ => "src"
  get_oper_name := fun _ => "admin"
  has_priv := fun _ _ => false
  random_string := fun _ => "newpassword1"
  time_string := "0"
  groupacs_founder := fun _ _ => true
  snprintf := fun size s => String.mk (take_bytes (size - 1) s.data)
  bad_password := fun _ mu => mu

/-- A sample account. -/
def alice : myuser_t where
  name := "alice"
  pass := "pw"
  email := "a@x"
  flags := 0
  metadata := []
  nicks := ["alice"]
  logins := []

/-- A sample source that is not logged in. -/
def anon : sourceinfo where
  smu := none
  su := some "guest"
  commands := ["DROP", "UNGROUP"]

/-- A sample store that holds one account. -/
def st_alice : State where
  myusers := [some alice]
  mygroups := []

/-- A sample account with `MU_HOLD` set. -/
def held : myuser_t := { alice with name := "held", flags := 1 }

/-- A sample store that holds one held account. -/
def st_held : State where
  myusers := [some held]
  mygroups := []

/-- A sample account of a services operator, with `MU_HOLD` set as well. -/
def oper : myuser_t := { alice with name := "oper", flags := 1 }

/-- A sample store that holds one account of a services operator. -/
def st_oper : State where
  myusers := [some oper]
  mygroups := []

/-- A sample source that is logged in to the account in slot 0. -/
def owner : sourceinfo := { anon with smu := some 0 }

/-- A sample account that waits for its registration to be verified, key `abc`. -/
def pending : myuser_t :=
  { alice with
    name := "pending"
    flags := 8
    nicks := ["pending"]
    metadata := [("private:verify:register:key", "abc"),
      ("private:verify:register:timestamp", "1")] }

/-- A sample store that holds the account `pending`. -/
def st_pending : State where
  myusers := [some pending]
  mygroups := []

/-- A sample account with a pending e-mail change, key `k1`, to an address `e`. -/
def changing (e : String) : myuser_t :=
  { alice with
    name := "dave"
    nicks := ["dave"]
    metadata := [("private:verify:emailchg:key", "k1"),
      ("private:verify:emailchg:newemail", e),
      ("private:verify:emailchg:timestamp", "1")] }

/-- A sample store that holds the account `changing e`. -/
def st_changing (e : String) : State where
  myusers := [some (changing e)]
  mygroups := []

/-- A sample account with an e-mail change key and no new address. -/
def keyonly : myuser_t :=
  { alice with
    name := "erin"
    nicks := ["erin"]
    metadata := [("private:verify:emailchg:key", "k1")] }

/-- A sample store that holds the account `keyonly`. -/
def st_keyonly : State where
  myusers := [some keyonly]
  mygroups := []

/-- A sample environment in which every source holds every privilege. -/
def env_priv : Env := { env0 with has_priv := fun _ _ => true }

/-- A sample account marked by `carol`, with `MU_NOPASSWORD` set and a pending set-password
key. -/
def bob : myuser_t :=
  { alice with
    name := "bob"
    nicks := ["bob"]
    flags := 2048
    metadata := [("private:mark:setter", "carol"), ("private:setpass:key", "old")] }

/-- A sample store that holds the account `bob`. -/
def st_bob : State where
  myusers := [some bob]
  mygroups := []

/-- A sample account of a services operator that owns its nick. -/
def root : myuser_t := { alice with name := "oper", nicks := ["oper"] }

/-- A sample store that holds the account `root`. -/
def st_root : State where
  myusers := [some root]
  mygroups := []

/-- A sample environment in which names are registry keys without regard to letter case. -/
def env_fold : Env := { env0 with name_match := fun a b => strcasecmp a b = 0 }

/-- A sample group with the given name. -/
def grp (n : String) : mygroup_t where
  name := n
  flags := 0
  metadata := []

/-- A sample store that holds two groups. -/
def st_groups : State where
  myusers := []
  mygroups := [some (grp "!dev"), some (grp "!ops")]

/-- A sample account that has been frozen. -/
def frozen : myuser_t :=
  { alice with
    name := "frozen"
    nicks := ["frozen"]
    metadata := [("private:freeze:freezer", "admin")] }

/-- A sample store that holds the account `frozen`. -/
def st_frozen : State where
  myusers := [some frozen]
  mygroups := []

/-! ## Lemmas on strings and the heap -/

theorem strcmp_eq_zero_iff (a b : String) : strcmp a b = 0 ↔ a = b := by
  unfold strcmp
  constructor
  · intro h
    by_cases hab : a.data = b.data
    · exact String.ext hab
    · rw [if_neg hab] at h
      split_ifs at h; omega
  · intro h
    subst h
    simp

theorem heap_find_deref {α : Type} (pred : α → Bool) (h : List (Option α)) (p : Nat) (a : α)
    (hf : heap_find pred h = some (p, a)) : deref h p = some a ∧ pred a = true := by
  induction h generalizing p with
  | nil => simp [heap_find] at hf
  | cons x t ih =>
    cases x with
    | none =>
      simp only [heap_find, Option.map_eq_some'] at hf
      obtain ⟨⟨q, b⟩, hq, he⟩ := hf
      simp only [Prod.mk.injEq] at he
      obtain ⟨rfl, rfl⟩ := he
      simpa [deref] using ih q hq
    | some c =>
      cases hc : pred c with
      | true =>
        simp only [heap_find, hc, if_true, Option.some.injEq, Prod.mk.injEq] at hf
        obtain ⟨rfl, rfl⟩ := hf
        simp [deref, hc]
      | false =>
        simp only [heap_find, hc, Option.map_eq_some'] at hf
        simp only [Bool.false_eq_true, if_false, Option.map_eq_some'] at hf
        obtain ⟨⟨q, b⟩, hq, he⟩ := hf
        simp only [Prod.mk.injEq] at he
        obtain ⟨rfl, rfl⟩ := he
        simpa [deref] using ih q hq

theorem deref_store_self {α : Type} (h : List (Option α)) (p : Nat) (a : α) (v : Option α)
    (hd : deref h p = some a) : deref (store h p v) p = v := by
  induction h generalizing p with
  | nil => simp [deref] at hd
  | cons x t ih =>
    cases p with
    | zero => simp [store, deref]
    | succ n => simpa [store, deref] using ih n (by simpa [deref] using hd)

theorem strcasecmp_eq_zero_iff (a b : String) :
    strcasecmp a b = 0 ↔ a.data.map Char.toLower = b.data.map Char.toLower := by
  unfold strcasecmp lowerChars
  constructor
  · intro h
    by_contra hab
    rw [if_neg hab] at h
    split_ifs at h; omega
  · intro h
    simp [h]

theorem strcasecmp_self (a : String) : strcasecmp a a = 0 :=
  (strcasecmp_eq_zero_iff a a).2 rfl

theorem strcasecmp_emailchg_ne_register (op : String) (h : strcasecmp op "EMAILCHG" = 0) :
    ¬ strcasecmp op "REGISTER" = 0 := by
  intro h2
  rw [strcasecmp_eq_zero_iff] at h h2
  rw [h] at h2
  revert h2
  decide

theorem land_lnot32_land (f m : Nat) : (f &&& lnot32 m) &&& m = 0 := by
  apply Nat.eq_of_testBit_eq
  intro i
  have hlt : m % 2 ^ 32 < 2 ^ 32 := Nat.mod_lt _ (by norm_num)
  have hl : lnot32 m = 2 ^ 32 - (m % 2 ^ 32 + 1) := by
    unfold lnot32
    omega
  rw [Nat.testBit_and, Nat.testBit_and, hl, Nat.testBit_two_pow_sub_succ hlt,
    Nat.testBit_mod_two_pow]
  simp only [Nat.zero_testBit]
  by_cases hi : i < 32 <;> simp [hi]

theorem metadata_find_delete_self (md : List (String × String)) (k : String) :
    metadata_find (metadata_delete md k) k = none := by
  unfold metadata_find metadata_delete
  simp [List.find?_eq_none]

theorem metadata_find_delete_none (md : List (String × String)) (k k2 : String)
    (h : metadata_find md k = none) : metadata_find (metadata_delete md k2) k = none := by
  unfold metadata_find metadata_delete at *
  simp only [Option.map_eq_none', List.find?_eq_none] at *
  intro e he
  exact h e (List.mem_of_mem_filter he)

theorem heap_find_store_found {α : Type} (pred : α → Bool) (h : List (Option α)) (p : Nat)
    (a b : α) (hf : heap_find pred h = some (p, a)) (hb : pred b = true) :
    heap_find pred (store h p (some b)) = some (p, b) := by
  induction h generalizing p with
  | nil => simp [heap_find] at hf
  | cons x t ih =>
    cases x with
    | none =>
      simp only [heap_find, Option.map_eq_some'] at hf
      obtain ⟨⟨q, c⟩, hq, he⟩ := hf
      simp only [Prod.mk.injEq] at he
      obtain ⟨rfl, rfl⟩ := he
      simp [store, heap_find, ih q hq]
    | some c =>
      cases hc : pred c with
      | true =>
        simp only [heap_find, hc, if_true, Option.some.injEq, Prod.mk.injEq] at hf
        obtain ⟨rfl, rfl⟩ := hf
        simp [store, heap_find, hb]
      | false =>
        simp only [heap_find, hc, Option.map_eq_some'] at hf
        simp only [Bool.false_eq_true, if_false, Option.map_eq_some'] at hf
        obtain ⟨⟨q, d⟩, hq, he⟩ := hf
        simp only [Prod.mk.injEq] at he
        obtain ⟨rfl, rfl⟩ := he
        simp [store, heap_find, hc, ih q hq]

/-! ## DROP -/

theorem drop_confirmed_result (env : Env) (si : sourceinfo) (st : State) (parv : List String)
    (p : Nat) (mu : myuser_t) (h : drop_confirmed env si st parv p mu) :
    cmd_ns_drop_func env si st parv =
      (atheme_object_dispose st p,
        [Event.command_add_flood .FLOOD_MODERATE,
          Event.logcommand [.CMDLOG_REGISTER] ("DROP: \x02" ++ mu.name ++ "\x02"),
          Event.hook_call_user_drop p]
        ++ (if !env.no_nick_ownership then [Event.holdnick_sts mu.name] else [])
        ++ [Event.command_success_nodata
          ("The account \x02" ++ mu.name ++ "\x02 has been dropped.")]) := by
  obtain ⟨acc, pass, key, ch, h0, h1, hf, hfr, hpw, hgrp, hso, hhold, hch, h2, rfl⟩ := h
  have hgrp2 : ((!env.no_nick_ownership) && (decide (mu.nicks.length > 1)
      && command_find si.commands "UNGROUP")) = false := by
    cases hn : env.no_nick_ownership <;> simp_all
  simp only [cmd_ns_drop_func, h0, h1, hf, hfr, hpw, hgrp2, hso, hhold, hch, h2]
  simp [strcmp_eq_zero_iff]

theorem drop_unconfirmed_result (env : Env) (si : sourceinfo) (st : State)
    (parv : List String) (h : ¬ ∃ p mu, drop_confirmed env si st parv p mu) :
    (cmd_ns_drop_func env si st parv).1 = st ∧
      ∀ q, Event.hook_call_user_drop q ∉ (cmd_ns_drop_func env si st parv).2 := by
  cases h0 : parv[0]? with
  | none => simp [cmd_ns_drop_func, h0]
  | some acc =>
  cases h1 : parv[1]? with
  | none => simp [cmd_ns_drop_func, h0, h1]
  | some pass =>
  cases hf : myuser_find env st acc with
  | none =>
    simp only [cmd_ns_drop_func, h0, h1, hf]
    split <;> simp
  | some r =>
  obtain ⟨p, mu⟩ := r
  cases hfr : metadata_find mu.metadata "private:freeze:freezer" with
  | some v => simp [cmd_ns_drop_func, h0, h1, hf, hfr]
  | none =>
  cases hpw : env.verify_password mu pass with
  | false => simp [cmd_ns_drop_func, h0, h1, hf, hfr, hpw]
  | true =>
  cases hgrp : ((!env.no_nick_ownership) && (decide (mu.nicks.length > 1)
      && command_find si.commands "UNGROUP")) with
  | true =>
    simp only [cmd_ns_drop_func, h0, h1, hf, hfr, hpw, hgrp]
    simp
  | false =>
  cases hso : env.is_soper mu with
  | true =>
    simp only [cmd_ns_drop_func, h0, h1, hf, hfr, hpw, hgrp, hso]
    simp
  | false =>
  by_cases hhold : mu.flags &&& env.MU_HOLD = 0
  swap
  · simp only [cmd_ns_drop_func, h0, h1, hf, hfr, hpw, hgrp, hso]
    simp [hhold]
  cases hch : env.create_weak_challenge si mu.name with
  | none =>
    simp only [cmd_ns_drop_func, h0, h1, hf, hfr, hpw, hgrp, hso, hch]
    simp [hhold]
  | some ch =>
  cases h2 : parv[2]? with
  | none =>
    simp only [cmd_ns_drop_func, h0, h1, hf, hfr, hpw, hgrp, hso, hch, h2]
    simp [hhold]
  | some key =>
  by_cases hk : key = ch
  · exfalso
    apply h
    refine ⟨p, mu, acc, pass, key, ch, h0, h1, hf, hfr, hpw, ?_, hso, hhold, hch, h2, hk⟩
    intro ⟨a, b, c⟩
    simp [a, b, c] at hgrp
  · have hne : strcmp ch key ≠ 0 := fun e => hk ((strcmp_eq_zero_iff ch key).1 e).symm
    simp only [cmd_ns_drop_func, h0, h1, hf, hfr, hpw, hgrp, hso, hch, h2]
    simp [hhold, hne]

/-- C1: self-service DROP destroys the resolved account and fires the user-drop hook exactly
once if and only if every documented condition holds (parameters, resolution, not frozen,
password, no grouped-nick block, not a services operator, not held, challenge created, key
equal to the challenge); otherwise the store is unchanged and the hook does not fire, in
particular without a key; and a key that differs from the challenge gets the invalid-key
report. -/
theorem drop_destroys_iff_confirmed (env : Env) (si : sourceinfo) (st : State)
    (parv : List String) :
    (∀ acc p mu, parv[0]? = some acc → myuser_find env st acc = some (p, mu) →
      ((deref (cmd_ns_drop_func env si st parv).1.myusers p = none ∧
          (cmd_ns_drop_func env si st parv).2.count (Event.hook_call_user_drop p) = 1) ↔
        drop_confirmed env si st parv p mu)) ∧
    ((¬ ∃ p mu, drop_confirmed env si st parv p mu) →
      (cmd_ns_drop_func env si st parv).1 = st ∧
        ∀ q, Event.hook_call_user_drop q ∉ (cmd_ns_drop_func env si st parv).2) ∧
    (parv[2]? = none →
      (cmd_ns_drop_func env si st parv).1 = st ∧
        ∀ q, Event.hook_call_user_drop q ∉ (cmd_ns_drop_func env si st parv).2) ∧
    (∀ acc pass key ch p mu, parv[0]? = some acc → parv[1]? = some pass →
      myuser_find env st acc = some (p, mu) →
      metadata_find mu.metadata "private:freeze:freezer" = none →
      env.verify_password mu pass = true →
      ¬ (env.no_nick_ownership = false ∧ 1 < mu.nicks.length ∧
          command_find si.commands "UNGROUP" = true) →
      env.is_soper mu = false → mu.flags &&& env.MU_HOLD = 0 →
      env.create_weak_challenge si mu.name = some ch →
      parv[2]? = some key → key ≠ ch →
      cmd_ns_drop_func env si st parv =
        (st, [Event.command_fail .fault_badparams "Invalid key for DROP."])) := by
  refine ⟨?_, drop_unconfirmed_result env si st parv, ?_, ?_⟩
  · intro acc p mu h0 hf
    have hd := (heap_find_deref _ _ _ _ hf).1
    constructor
    · intro ⟨hgone, _⟩
      by_contra hc
      have hun : ¬ ∃ p mu, drop_confirmed env si st parv p mu := by
        intro ⟨p2, mu2, hc2⟩
        obtain ⟨acc2, pass, key, ch, h0b, h1, hf2, rest⟩ := hc2
        rw [h0] at h0b
        cases h0b
        rw [hf] at hf2
        cases hf2
        exact hc ⟨acc, pass, key, ch, h0, h1, hf, rest⟩
      rw [(drop_unconfirmed_result env si st parv hun).1, hd] at hgone
      cases hgone
    · intro hc
      rw [drop_confirmed_result env si st parv p mu hc]
      constructor
      · exact deref_store_self _ _ _ _ hd
      · cases env.no_nick_ownership <;> simp [List.count_cons]
  · intro h2
    apply drop_unconfirmed_result
    intro ⟨p, mu, acc, pass, key, ch, _, _, _, _, _, _, _, _, _, h2b, _⟩
    rw [h2] at h2b
    cases h2b
  · intro acc pass key ch p mu h0 h1 hf hfr hpw hgrp hso hhold hch h2 hk
    have hgrp2 : ((!env.no_nick_ownership) && (decide (mu.nicks.length > 1)
        && command_find si.commands "UNGROUP")) = false := by
      cases hn : env.no_nick_ownership <;> simp_all
    have hne : strcmp ch key ≠ 0 := fun e => hk ((strcmp_eq_zero_iff ch key).1 e).symm
    simp only [cmd_ns_drop_func, h0, h1, hf, hfr, hpw, hgrp2, hso, hch, h2]
    simp [hhold, hne]

/-- C1 at a sample input: the owner of the only account confirms the drop with the key. -/
theorem drop_destroys_iff_confirmed_witness :
    deref (cmd_ns_drop_func env0 anon st_alice ["alice", "pw", "alice:k"]).1.myusers 0 = none ∧
      (cmd_ns_drop_func env0 anon st_alice ["alice", "pw", "alice:k"]).2.count
        (Event.hook_call_user_drop 0) = 1 :=
  ((drop_destroys_iff_confirmed env0 anon st_alice ["alice", "pw", "alice:k"]).1
    "alice" 0 alice rfl rfl).2
    ⟨"alice", "pw", "alice:k", "alice:k", rfl, rfl, rfl, rfl, rfl, by decide, rfl, rfl, rfl,
      rfl, rfl⟩

/-- C2, as stated, fails: a source that is logged in to no account sends DROP for an account
with its password; the command reports no fault, issues the challenge, and with the key
destroys the account. -/
theorem drop_unlinked_counterexample :
    anon.smu ≠ some 0 ∧ myuser_find env0 st_alice "alice" = some (0, alice) ∧
      env0.verify_password alice "pw" = true ∧
      cmd_ns_drop_func env0 anon st_alice ["alice", "pw"] =
        (st_alice,
          [Event.command_success_nodata
              "This is a friendly reminder that you are about to \x02destroy\x02 the account \x02alice\x02.",
            Event.command_success_nodata
              ("To avoid accidental use of this command, this operation has to be confirmed. "
                ++ "Please confirm by replying with \x02/msg NickServ DROP alice pw alice:k\x02")]) ∧
      deref (cmd_ns_drop_func env0 anon st_alice ["alice", "pw", "alice:k"]).1.myusers 0 = none := by
  refine ⟨by decide, rfl, rfl, rfl, by decide⟩

/-- C2, amended: DROP does not consult the session link. For a source that is not logged in
to the target, with the password of the target, the target not frozen, no grouped-nick block,
not of a services operator, not held, and a challenge created: without a key the command
leaves the store as it is and answers with the reminder and the confirmation command, which
is the text `snprintf` left in the buffer `fullcmd`; with the challenge as key it destroys
the account and fires the drop hook. -/
theorem drop_unlinked_proceeds (env : Env) (si : sourceinfo) (st : State)
    (acc pass ch : String) (p : Nat) (mu : myuser_t)
    (_hlink : si.smu ≠ some p)
    (hf : myuser_find env st acc = some (p, mu))
    (hfr : metadata_find mu.metadata "private:freeze:freezer" = none)
    (hpw : env.verify_password mu pass = true)
    (hgrp : ¬ (env.no_nick_ownership = false ∧ 1 < mu.nicks.length ∧
        command_find si.commands "UNGROUP" = true))
    (hso : env.is_soper mu = false) (hhold : mu.flags &&& env.MU_HOLD = 0)
    (hch : env.create_weak_challenge si mu.name = some ch) :
    cmd_ns_drop_func env si st [acc, pass] =
      (st,
        [Event.command_success_nodata
            ("This is a friendly reminder that you are about to \x02destroy\x02 "
              ++ "the account \x02" ++ mu.name ++ "\x02."),
          Event.command_success_nodata
            ("To avoid accidental use of this command, this operation has to "
              ++ "be confirmed. Please confirm by replying with \x02"
              ++ env.snprintf env.BUFSIZE
                ("/" ++ (if env.uses_rcommand = false then "msg " else "") ++ env.nicksvs_disp
                  ++ " DROP " ++ mu.name ++ " " ++ pass ++ " " ++ ch)
              ++ "\x02")]) ∧
      (cmd_ns_drop_func env si st [acc, pass, ch]).1 = atheme_object_dispose st p ∧
      deref (cmd_ns_drop_func env si st [acc, pass, ch]).1.myusers p = none ∧
      Event.hook_call_user_drop p ∈ (cmd_ns_drop_func env si st [acc, pass, ch]).2 := by
  have hgrp2 : ((!env.no_nick_ownership) && (decide (mu.nicks.length > 1)
      && command_find si.commands "UNGROUP")) = false := by
    cases hn : env.no_nick_ownership <;> simp_all
  have hc : drop_confirmed env si st [acc, pass, ch] p mu :=
    ⟨acc, pass, ch, ch, rfl, rfl, hf, hfr, hpw, hgrp, hso, hhold, hch, rfl, rfl⟩
  have hd := (heap_find_deref _ _ _ _ hf).1
  refine ⟨?_, ?_, ?_, ?_⟩
  · have h0 : [acc, pass][0]? = some acc := rfl
    have h1 : [acc, pass][1]? = some pass := rfl
    have h2 : [acc, pass][2]? = none := rfl
    simp only [cmd_ns_drop_func, h0, h1, h2, hf, hfr, hpw, hgrp2, hso, hch]
    simp [hhold]
  · rw [drop_confirmed_result env si st _ p mu hc]
  · rw [drop_confirmed_result env si st _ p mu hc]
    exact deref_store_self _ _ _ _ hd
  · rw [drop_confirmed_result env si st _ p mu hc]
    simp

/-- C2 amended, at a sample input: a source that is logged in to nothing drops an account. -/
theorem drop_unlinked_proceeds_witness :
    deref (cmd_ns_drop_func env0 anon st_alice ["alice", "pw", "alice:k"]).1.myusers 0 = none :=
  (drop_unlinked_proceeds env0 anon st_alice "alice" "pw" "alice:k" 0 alice (by decide) rfl rfl
    rfl (by decide) rfl rfl rfl).2.2.1

/-- C3, as stated, fails: DROP on a held account with a wrong password reports
`fault_authfail`, not `fault_noprivs`. -/
theorem held_drop_counterexample :
    myuser_find env0 st_held "held" = some (0, held) ∧ held.flags &&& env0.MU_HOLD ≠ 0 ∧
      cmd_ns_drop_func env0 anon st_held ["held", "bad"] =
        (st_held,
          [Event.command_fail .fault_authfail
              "Authentication failed. Invalid password for \x02held\x02.",
            Event.bad_password 0]) := by
  refine ⟨rfl, by decide, by decide⟩

/-- C3, amended: for an account with `MU_HOLD` set, FDROP fails with `fault_noprivs` and
leaves the store as it is; DROP, for every password and key, leaves the store as it is and
fires no drop hook, and its report is `fault_noprivs` when the account is not frozen and the
password verifies, `fault_authfail` otherwise. -/
theorem held_never_dropped (env : Env) (si : sourceinfo) (st : State) (acc : String)
    (p : Nat) (mu : myuser_t) (hf : myuser_find env st acc = some (p, mu))
    (hhold : mu.flags &&& env.MU_HOLD ≠ 0) :
    (∀ rest, ∃ m, cmd_ns_fdrop_func env si st (acc :: rest) =
      (st, [Event.command_fail .fault_noprivs m])) ∧
    (∀ pass rest,
      (cmd_ns_drop_func env si st (acc :: pass :: rest)).1 = st ∧
      deref (cmd_ns_drop_func env si st (acc :: pass :: rest)).1.myusers p = some mu ∧
      (∀ q, Event.hook_call_user_drop q ∉ (cmd_ns_drop_func env si st (acc :: pass :: rest)).2) ∧
      ((metadata_find mu.metadata "private:freeze:freezer" = none ∧
          env.verify_password mu pass = true) →
        ∃ m, cmd_ns_drop_func env si st (acc :: pass :: rest) =
          (st, [Event.command_fail .fault_noprivs m])) ∧
      (¬ (metadata_find mu.metadata "private:freeze:freezer" = none ∧
          env.verify_password mu pass = true) →
        ∃ m evs, cmd_ns_drop_func env si st (acc :: pass :: rest) =
          (st, Event.command_fail .fault_authfail m :: evs))) := by
  have hd := (heap_find_deref _ _ _ _ hf).1
  constructor
  · intro rest
    have h0 : (acc :: rest)[0]? = some acc := by simp
    cases hso : env.is_soper mu with
    | true =>
      simp only [cmd_ns_fdrop_func, h0, hf, hso]
      simp
    | false =>
      simp only [cmd_ns_fdrop_func, h0, hf, hso]
      simp [hhold]
  · intro pass rest
    have h0 : (acc :: pass :: rest)[0]? = some acc := by simp
    have h1 : (acc :: pass :: rest)[1]? = some pass := by simp
    have hun : ¬ ∃ p mu, drop_confirmed env si st (acc :: pass :: rest) p mu := by
      intro ⟨p2, mu2, acc2, pass2, key, ch, h0b, _, hf2, _, _, _, _, hh, _⟩
      rw [h0] at h0b
      cases h0b
      rw [hf] at hf2
      cases hf2
      exact hhold hh
    have hr := drop_unconfirmed_result env si st (acc :: pass :: rest) hun
    refine ⟨hr.1, by rw [hr.1]; exact hd, hr.2, ?_, ?_⟩
    · intro ⟨hfr, hpw⟩
      cases hgrp : ((!env.no_nick_ownership) && (decide (mu.nicks.length > 1)
          && command_find si.commands "UNGROUP")) with
      | true =>
        simp only [cmd_ns_drop_func, h0, h1, hf, hfr, hpw, hgrp]
        simp
      | false =>
        cases hso : env.is_soper mu with
        | true =>
          simp only [cmd_ns_drop_func, h0, h1, hf, hfr, hpw, hgrp, hso]
          simp
        | false =>
          simp only [cmd_ns_drop_func, h0, h1, hf, hfr, hpw, hgrp, hso]
          simp [hhold]
    · intro hn
      cases hfr : metadata_find mu.metadata "private:freeze:freezer" with
      | some v =>
        simp only [cmd_ns_drop_func, h0, h1, hf, hfr]
        simp
      | none =>
        cases hpw : env.verify_password mu pass with
        | true => exact absurd ⟨hfr, hpw⟩ hn
        | false =>
          simp only [cmd_ns_drop_func, h0, h1, hf, hfr, hpw]
          simp

/-- C3 amended, at a sample input: FDROP and DROP on the held sample account. -/
theorem held_never_dropped_witness :
    (∃ m, cmd_ns_fdrop_func env0 anon st_held ["held"] =
      (st_held, [Event.command_fail .fault_noprivs m])) ∧
    (cmd_ns_drop_func env0 anon st_held ["held", "pw", "held:k"]).1 = st_held :=
  ⟨(held_never_dropped env0 anon st_held "held" 0 held rfl (by decide)).1 [],
    ((held_never_dropped env0 anon st_held "held" 0 held rfl (by decide)).2 "pw" ["held:k"]).1⟩

/-- C4: for an account of a services operator, FDROP answers with the services-operator
denial (`fault_noprivs`) and nothing else (no wallops, no log line, no drop hook), whatever
the privileges of the source and whether or not the account is also held, and leaves the
store as it is; DROP, with or without a key, leaves the account in place and fires no drop
hook. -/
theorem soper_never_dropped (env : Env) (si : sourceinfo) (st : State) (acc : String)
    (p : Nat) (mu : myuser_t) (hf : myuser_find env st acc = some (p, mu))
    (hso : env.is_soper mu = true) :
    (∀ rest, cmd_ns_fdrop_func env si st (acc :: rest) =
      (st, [Event.command_fail .fault_noprivs
        ("The nickname \x02" ++ acc
          ++ "\x02 belongs to a services operator; it cannot be dropped.")])) ∧
    (∀ rest,
      (cmd_ns_drop_func env si st (acc :: rest)).1 = st ∧
      deref (cmd_ns_drop_func env si st (acc :: rest)).1.myusers p = some mu ∧
      (∀ q, Event.hook_call_user_drop q ∉ (cmd_ns_drop_func env si st (acc :: rest)).2)) := by
  have hd := (heap_find_deref _ _ _ _ hf).1
  constructor
  · intro rest
    have h0 : (acc :: rest)[0]? = some acc := by simp
    simp only [cmd_ns_fdrop_func, h0, hf, hso]
    simp
  · intro rest
    have h0 : (acc :: rest)[0]? = some acc := by simp
    have hun : ¬ ∃ p mu, drop_confirmed env si st (acc :: rest) p mu := by
      intro ⟨p2, mu2, acc2, pass2, key, ch, h0b, _, hf2, _, _, _, hs, _⟩
      rw [h0] at h0b
      cases h0b
      rw [hf] at hf2
      cases hf2
      rw [hso] at hs
      cases hs
    have hr := drop_unconfirmed_result env si st (acc :: rest) hun
    exact ⟨hr.1, by rw [hr.1]; exact hd, hr.2⟩

/-- C4 at a sample input: FDROP on a held account of a services operator reports the
services-operator denial. -/
theorem soper_never_dropped_witness :
    oper.flags &&& env0.MU_HOLD ≠ 0 ∧
    cmd_ns_fdrop_func env0 anon st_oper ["oper"] =
      (st_oper, [Event.command_fail .fault_noprivs
        ("The nickname \x02" ++ "oper"
          ++ "\x02 belongs to a services operator; it cannot be dropped.")]) :=
  ⟨by decide, (soper_never_dropped env0 anon st_oper "oper" 0 oper rfl rfl).1 []⟩

/-! ## VERIFY and FVERIFY -/

/-- C5, as stated, fails: the stored key is `abc`, the owner sends `ABC`, and the
registration is verified (`MU_WAITAUTH` cleared, the pending record deleted). -/
theorem verify_case_counterexample :
    "ABC" ≠ "abc" ∧ owner.smu = some 0 ∧
      myuser_find env0 st_pending "pending" = some (0, pending) ∧
      pending.flags &&& env0.MU_WAITAUTH ≠ 0 ∧
      metadata_find pending.metadata "private:verify:register:key" = some "abc" ∧
      ns_cmd_verify env0 owner st_pending ["REGISTER", "pending", "ABC"] =
        some (⟨[some { pending with flags := 0, metadata := [] }], []⟩,
          [Event.logcommand [.CMDLOG_SET] "VERIFY:REGISTER: \x02src\x02 (email: \x02a@x\x02)",
            Event.command_success_nodata "\x02pending\x02 has now been verified.",
            Event.command_success_nodata
              ("Thank you for verifying your e-mail address! You have taken steps in "
                ++ "ensuring that your registrations are not exploited."),
            Event.hook_call_user_verify_register 0 (some 0)]) := by
  refine ⟨by decide, rfl, rfl, by decide, rfl, by decide⟩

/-- C5, amended: VERIFY REGISTER and VERIFY EMAILCHG by the logged-in owner of an account
with a pending record compare the keys with `strcasecmp`, which returns zero exactly when
the two keys are equal after folding letter case. A supplied key that the comparison tells
apart from the stored key is rejected with the invalid-key report and the store is left as it
is; the store changes only if the comparison returns zero. A supplied key that the
comparison does not tell apart from the stored key, one that differs only in letter case
included, is accepted: REGISTER is applied (`MU_WAITAUTH` cleared), and EMAILCHG is applied
(the e-mail replaced by the pending address) when the pending address is within quota. -/
theorem verify_applies_only_on_key_match (env : Env) (si : sourceinfo) (st : State)
    (op nick key K : String) (p : Nat) (mu : myuser_t)
    (hown : si.smu = some p) (hf : myuser_find env st nick = some (p, mu))
    (hpend : (strcasecmp op "REGISTER" = 0 ∧ mu.flags &&& env.MU_WAITAUTH ≠ 0 ∧
        metadata_find mu.metadata "private:verify:register:key" = some K) ∨
      (strcasecmp op "EMAILCHG" = 0 ∧
        metadata_find mu.metadata "private:verify:emailchg:key" = some K)) :
    (strcasecmp key K ≠ 0 →
      ∃ l, ns_cmd_verify env si st [op, nick, key] =
        some (st, [Event.logcommand [.CMDLOG_SET] l,
          Event.command_fail .fault_badparams
            ("Verification failed. Invalid key for \x02" ++ mu.name ++ "\x02.")])) ∧
    (∀ st2 evs, ns_cmd_verify env si st [op, nick, key] = some (st2, evs) → st2 ≠ st →
      strcasecmp key K = 0) ∧
    (strcasecmp key K = 0 ↔ key.data.map Char.toLower = K.data.map Char.toLower) ∧
    (strcasecmp key K = 0 → strcasecmp op "REGISTER" = 0 →
      ns_cmd_verify env si st [op, nick, key] =
          some (myuser_write st p (register_done env mu),
            verify_register_trace env si st p mu) ∧
        deref (myuser_write st p (register_done env mu)).myusers p
          = some (register_done env mu) ∧
        (register_done env mu).flags &&& env.MU_WAITAUTH = 0) ∧
    (strcasecmp key K = 0 → strcasecmp op "EMAILCHG" = 0 →
      ∀ e, metadata_find mu.metadata "private:verify:emailchg:newemail" = some e →
        env.email_within_limits st e = true →
        ns_cmd_verify env si st [op, nick, key] =
            some (myuser_write st p (emailchg_done mu e), verify_emailchg_trace env si e) ∧
          deref (myuser_write st p (emailchg_done mu e)).myusers p
            = some (emailchg_done mu e) ∧
          (emailchg_done mu e).email = e) := by
  have h0 : [op, nick, key][0]? = some op := rfl
  have h1 : [op, nick, key][1]? = some nick := rfl
  have h2 : [op, nick, key][2]? = some key := rfl
  have hd := (heap_find_deref _ _ _ _ hf).1
  have hmis : strcasecmp key K ≠ 0 →
      ∃ l, ns_cmd_verify env si st [op, nick, key] =
        some (st, [Event.logcommand [.CMDLOG_SET] l,
          Event.command_fail .fault_badparams
            ("Verification failed. Invalid key for \x02" ++ mu.name ++ "\x02.")]) := by
    intro hk
    rcases hpend with ⟨hop, hw, hK⟩ | ⟨hop, hK⟩
    · simp only [ns_cmd_verify, h0, h1, h2, hf, hown, hop, hK]
      simp [hw, hk]
    · have hnr := strcasecmp_emailchg_ne_register op hop
      simp only [ns_cmd_verify, h0, h1, h2, hf, hown, hop, hK]
      simp [hnr, hk]
  refine ⟨hmis, ?_, strcasecmp_eq_zero_iff key K, ?_, ?_⟩
  · intro st2 evs hr hne
    by_contra hk
    obtain ⟨l, hl⟩ := hmis hk
    rw [hl] at hr
    simp only [Option.some.injEq, Prod.mk.injEq] at hr
    exact hne hr.1.symm
  · intro hk hop
    rcases hpend with ⟨_, hw, hK⟩ | ⟨hop2, _⟩
    · refine ⟨?_, deref_store_self _ _ _ _ hd, land_lnot32_land _ _⟩
      simp only [ns_cmd_verify, h0, h1, h2, hf, hown, hop, hK, hk]
      simp [hw, register_done, verify_register_trace]
    · exact absurd hop (strcasecmp_emailchg_ne_register op hop2)
  · intro hk hop2 e hE hq
    have hnr := strcasecmp_emailchg_ne_register op hop2
    rcases hpend with ⟨hop, _, _⟩ | ⟨_, hK⟩
    · exact absurd hop hnr
    · refine ⟨?_, deref_store_self _ _ _ _ hd, rfl⟩
      simp only [ns_cmd_verify, h0, h1, h2, hf, hown, hop2, hK, hk, hE, hq]
      simp [hnr, emailchg_done, myuser_set_email, verify_emailchg_trace]

/-- C5 amended, at sample inputs: the owner sends a key that is not the stored one, and the
owner of the account with a pending e-mail change sends the stored key `k1` as `K1`. -/
theorem verify_applies_only_on_key_match_witness :
    (∃ l, ns_cmd_verify env0 owner st_pending ["REGISTER", "pending", "abd"] =
      some (st_pending, [Event.logcommand [.CMDLOG_SET] l,
        Event.command_fail .fault_badparams
          ("Verification failed. Invalid key for \x02" ++ pending.name ++ "\x02.")])) ∧
    (ns_cmd_verify env0 owner (st_changing "new@x") ["EMAILCHG", "dave", "K1"] =
        some (myuser_write (st_changing "new@x") 0 (emailchg_done (changing "new@x") "new@x"),
          verify_emailchg_trace env0 owner "new@x") ∧
      deref (myuser_write (st_changing "new@x") 0
          (emailchg_done (changing "new@x") "new@x")).myusers 0
        = some (emailchg_done (changing "new@x") "new@x") ∧
      (emailchg_done (changing "new@x") "new@x").email = "new@x") :=
  ⟨(verify_applies_only_on_key_match env0 owner st_pending "REGISTER" "pending" "abd" "abc" 0
      pending rfl rfl (Or.inl ⟨by decide, by decide, rfl⟩)).1 (by decide),
    (verify_applies_only_on_key_match env0 owner (st_changing "new@x") "EMAILCHG" "dave" "K1"
      "k1" 0 (changing "new@x") rfl rfl (Or.inr ⟨by decide, rfl⟩)).2.2.2.2 (by decide)
      (by decide) "new@x" rfl rfl⟩

/-- C6, as stated, fails: after the quota rejection the pending record is still there, and
the repeated VERIFY EMAILCHG gets the quota report again, not the not-pending one. -/
theorem verify_quota_counterexample :
    env0.email_within_limits (st_changing "full@x") "full@x" = false ∧
      ns_cmd_verify env0 owner (st_changing "full@x") ["EMAILCHG", "dave", "k1"] =
        some (st_changing "full@x", [Event.command_fail .fault_toomany
          "\x02full@x\x02 has too many accounts registered."]) ∧
      (ns_cmd_verify env0 owner (st_changing "full@x") ["EMAILCHG", "dave", "k1"]).bind
          (fun r => ns_cmd_verify env0 owner r.1 ["EMAILCHG", "dave", "k1"]) =
        some (st_changing "full@x", [Event.command_fail .fault_toomany
          "\x02full@x\x02 has too many accounts registered."]) ∧
      (ns_cmd_verify env0 owner (st_changing "full@x") ["EMAILCHG", "dave", "k1"]).bind
          (fun r => ns_cmd_verify env0 owner r.1 ["EMAILCHG", "dave", "k1"]) ≠
        some (st_changing "full@x", [not_awaiting "dave"]) := by
  refine ⟨rfl, by decide, by decide, by decide⟩

/-- C6, amended: when the quota collaborator rejects the pending new address, VERIFY
EMAILCHG by the logged-in owner with a matching key fails with `fault_toomany` and leaves
the whole store as it is, the e-mail and the pending record included; the immediately
repeated command gets the same quota report. -/
theorem verify_quota_keeps_pending (env : Env) (si : sourceinfo) (st : State)
    (op nick key K e : String) (p : Nat) (mu : myuser_t)
    (hown : si.smu = some p) (hf : myuser_find env st nick = some (p, mu))
    (hop : strcasecmp op "EMAILCHG" = 0)
    (hK : metadata_find mu.metadata "private:verify:emailchg:key" = some K)
    (hk : strcasecmp key K = 0)
    (hE : metadata_find mu.metadata "private:verify:emailchg:newemail" = some e)
    (hq : env.email_within_limits st e = false) :
    ns_cmd_verify env si st [op, nick, key] =
        some (st, [Event.command_fail .fault_toomany
          ("\x02" ++ e ++ "\x02 has too many accounts registered.")]) ∧
      (ns_cmd_verify env si st [op, nick, key]).bind
          (fun r => ns_cmd_verify env si r.1 [op, nick, key]) =
        some (st, [Event.command_fail .fault_toomany
          ("\x02" ++ e ++ "\x02 has too many accounts registered.")]) := by
  have h0 : [op, nick, key][0]? = some op := rfl
  have h1 : [op, nick, key][1]? = some nick := rfl
  have h2 : [op, nick, key][2]? = some key := rfl
  have hnr := strcasecmp_emailchg_ne_register op hop
  have hfirst : ns_cmd_verify env si st [op, nick, key] =
      some (st, [Event.command_fail .fault_toomany
        ("\x02" ++ e ++ "\x02 has too many accounts registered.")]) := by
    simp only [ns_cmd_verify, h0, h1, h2, hf, hown, hop, hK, hk, hE, hq]
    simp [hnr]
  refine ⟨hfirst, ?_⟩
  rw [hfirst]
  exact hfirst

/-- C6 amended, at a sample input: the new address of the sample account is over quota. -/
theorem verify_quota_keeps_pending_witness :
    ns_cmd_verify env0 owner (st_changing "full@x") ["EMAILCHG", "dave", "k1"] =
      some (st_changing "full@x", [Event.command_fail .fault_toomany
        ("\x02" ++ "full@x" ++ "\x02 has too many accounts registered.")]) :=
  (verify_quota_keeps_pending env0 owner (st_changing "full@x") "EMAILCHG" "dave" "k1" "k1"
    "full@x" 0 (changing "full@x") rfl rfl (by decide) rfl (by decide) rfl rfl).1

/-- C7: with `MU_WAITAUTH` set and a stored registration key `K`, VERIFY REGISTER by the
logged-in owner with a key `W` that does not match `K` fails with the invalid-key report and
leaves the store as it is; VERIFY REGISTER with `K` right after it succeeds and clears
`MU_WAITAUTH`. -/
theorem verify_wrong_key_then_right (env : Env) (si : sourceinfo) (st : State)
    (op nick W K : String) (p : Nat) (mu : myuser_t)
    (hown : si.smu = some p) (hf : myuser_find env st nick = some (p, mu))
    (hop : strcasecmp op "REGISTER" = 0)
    (hw : mu.flags &&& env.MU_WAITAUTH ≠ 0)
    (hK : metadata_find mu.metadata "private:verify:register:key" = some K)
    (hW : strcasecmp W K ≠ 0) :
    ∃ l st2 evs mu2,
      ns_cmd_verify env si st [op, nick, W] =
        some (st, [Event.logcommand [.CMDLOG_SET] l,
          Event.command_fail .fault_badparams
            ("Verification failed. Invalid key for \x02" ++ mu.name ++ "\x02.")]) ∧
      (ns_cmd_verify env si st [op, nick, W]).bind
          (fun r => ns_cmd_verify env si r.1 [op, nick, K]) = some (st2, evs) ∧
      reports_failure evs = false ∧
      deref st2.myusers p = some mu2 ∧ mu2.flags &&& env.MU_WAITAUTH = 0 := by
  have hd := (heap_find_deref _ _ _ _ hf).1
  have hfirst : ns_cmd_verify env si st [op, nick, W] =
      some (st, [Event.logcommand [.CMDLOG_SET]
          ("failed VERIFY REGISTER \x02" ++ env.get_source_name si ++ "\x02, \x02"
            ++ mu.email ++ "\x02 (invalid key)"),
        Event.command_fail .fault_badparams
          ("Verification failed. Invalid key for \x02" ++ mu.name ++ "\x02.")]) := by
    have h0 : [op, nick, W][0]? = some op := rfl
    have h1 : [op, nick, W][1]? = some nick := rfl
    have h2 : [op, nick, W][2]? = some W := rfl
    simp only [ns_cmd_verify, h0, h1, h2, hf, hown, hop, hK]
    simp [hw, hW]
  have h0 : [op, nick, K][0]? = some op := rfl
  have h1 : [op, nick, K][1]? = some nick := rfl
  have h2 : [op, nick, K][2]? = some K := rfl
  have hsecond : ns_cmd_verify env si st [op, nick, K] =
      some (myuser_write st p (register_done env mu), verify_register_trace env si st p mu) := by
    simp only [ns_cmd_verify, h0, h1, h2, hf, hown, hop, hK, strcasecmp_self]
    simp [hw, register_done, verify_register_trace]
  refine ⟨_, myuser_write st p (register_done env mu), verify_register_trace env si st p mu,
    register_done env mu, hfirst, ?_, ?_, ?_, ?_⟩
  · rw [hfirst]
    exact hsecond
  · simp [reports_failure, verify_register_trace]
  · exact deref_store_self _ _ _ _ hd
  · exact land_lnot32_land _ _

/-- C7 at a sample input: the owner of the sample account first sends a wrong key. -/
theorem verify_wrong_key_then_right_witness :
    ∃ l st2 evs mu2,
      ns_cmd_verify env0 owner st_pending ["REGISTER", "pending", "abd"] =
        some (st_pending, [Event.logcommand [.CMDLOG_SET] l,
          Event.command_fail .fault_badparams
            ("Verification failed. Invalid key for \x02" ++ pending.name ++ "\x02.")]) ∧
      (ns_cmd_verify env0 owner st_pending ["REGISTER", "pending", "abd"]).bind
          (fun r => ns_cmd_verify env0 owner r.1 ["REGISTER", "pending", "abc"]) =
        some (st2, evs) ∧
      reports_failure evs = false ∧
      deref st2.myusers 0 = some mu2 ∧ mu2.flags &&& env0.MU_WAITAUTH = 0 :=
  verify_wrong_key_then_right env0 owner st_pending "REGISTER" "pending" "abd" "abc" 0 pending
    rfl rfl (by decide) (by decide) rfl (by decide)

/-- What a successful VERIFY went through: all three parameters, the account resolved, the
source logged in to it, and one of the two operations applied. -/
theorem verify_success_inv (env : Env) (si : sourceinfo) (st : State) (parv : List String)
    (st1 : State) (evs1 : List Event)
    (hr : ns_cmd_verify env si st parv = some (st1, evs1))
    (hok : reports_failure evs1 = false) :
    ∃ op nick key p mu, parv[0]? = some op ∧ parv[1]? = some nick ∧ parv[2]? = some key ∧
      myuser_find env st nick = some (p, mu) ∧ si.smu = some p ∧
      ((strcasecmp op "REGISTER" = 0 ∧ mu.flags &&& env.MU_WAITAUTH ≠ 0 ∧
          (∃ K, metadata_find mu.metadata "private:verify:register:key" = some K ∧
            strcasecmp key K = 0) ∧
          st1 = myuser_write st p (register_done env mu) ∧
          evs1 = verify_register_trace env si st p mu) ∨
        (strcasecmp op "REGISTER" ≠ 0 ∧ strcasecmp op "EMAILCHG" = 0 ∧
          ∃ K e, metadata_find mu.metadata "private:verify:emailchg:key" = some K ∧
            strcasecmp key K = 0 ∧
            metadata_find mu.metadata "private:verify:emailchg:newemail" = some e ∧
            env.email_within_limits st e = true ∧
            st1 = myuser_write st p (emailchg_done mu e))) := by
  cases h0 : parv[0]? with
  | none =>
    simp [ns_cmd_verify, h0] at hr
    obtain ⟨rfl, rfl⟩ := hr
    simp [reports_failure] at hok
  | some op =>
  cases h1 : parv[1]? with
  | none =>
    simp [ns_cmd_verify, h0, h1] at hr
    obtain ⟨rfl, rfl⟩ := hr
    simp [reports_failure] at hok
  | some nick =>
  cases h2 : parv[2]? with
  | none =>
    simp [ns_cmd_verify, h0, h1, h2] at hr
    obtain ⟨rfl, rfl⟩ := hr
    simp [reports_failure] at hok
  | some key =>
  cases hf : myuser_find env st nick with
  | none =>
    simp [ns_cmd_verify, h0, h1, h2, hf] at hr
    obtain ⟨rfl, rfl⟩ := hr
    simp [reports_failure] at hok
  | some r =>
  obtain ⟨p, mu⟩ := r
  by_cases hown : si.smu = some p
  swap
  · simp [ns_cmd_verify, h0, h1, h2, hf, hown] at hr
    obtain ⟨rfl, rfl⟩ := hr
    simp [reports_failure] at hok
  refine ⟨op, nick, key, p, mu, rfl, rfl, rfl, hf, hown, ?_⟩
  by_cases hop : strcasecmp op "REGISTER" = 0
  · left
    by_cases hw : mu.flags &&& env.MU_WAITAUTH = 0
    · simp [ns_cmd_verify, h0, h1, h2, hf, hown, hop, hw, not_awaiting] at hr
      obtain ⟨rfl, rfl⟩ := hr
      simp [reports_failure] at hok
    cases hK : metadata_find mu.metadata "private:verify:register:key" with
    | none =>
      simp only [ns_cmd_verify, h0, h1, h2, hf, hown, hop, hK] at hr
      simp [hw, not_awaiting] at hr
      obtain ⟨rfl, rfl⟩ := hr
      simp [reports_failure] at hok
    | some K =>
    by_cases hk : strcasecmp key K = 0
    · simp only [ns_cmd_verify, h0, h1, h2, hf, hown, hop, hK, hk] at hr
      simp [hw] at hr
      obtain ⟨rfl, rfl⟩ := hr
      exact ⟨hop, hw, ⟨K, rfl, hk⟩, rfl, by simp [verify_register_trace, register_done]⟩
    · simp only [ns_cmd_verify, h0, h1, h2, hf, hown, hop, hK] at hr
      simp [hw, hk] at hr
      obtain ⟨rfl, rfl⟩ := hr
      simp [reports_failure] at hok
  · right
    by_cases hop2 : strcasecmp op "EMAILCHG" = 0
    swap
    · simp [ns_cmd_verify, h0, h1, h2, hf, hown, hop, hop2] at hr
      obtain ⟨rfl, rfl⟩ := hr
      simp [reports_failure] at hok
    cases hK : metadata_find mu.metadata "private:verify:emailchg:key" with
    | none =>
      simp only [ns_cmd_verify, h0, h1, h2, hf, hown, hop2, hK] at hr
      simp [hop, not_awaiting] at hr
      obtain ⟨rfl, rfl⟩ := hr
      simp [reports_failure] at hok
    | some K =>
    by_cases hk : strcasecmp key K = 0
    swap
    · simp only [ns_cmd_verify, h0, h1, h2, hf, hown, hop2, hK] at hr
      simp [hop, hk] at hr
      obtain ⟨rfl, rfl⟩ := hr
      simp [reports_failure] at hok
    cases hE : metadata_find mu.metadata "private:verify:emailchg:newemail" with
    | none =>
      simp only [ns_cmd_verify, h0, h1, h2, hf, hown, hop2, hK, hk, hE] at hr
      simp [hop] at hr
    | some e =>
    cases hq : env.email_within_limits st e with
    | false =>
      simp only [ns_cmd_verify, h0, h1, h2, hf, hown, hop2, hK, hk, hE, hq] at hr
      simp [hop] at hr
      obtain ⟨rfl, rfl⟩ := hr
      simp [reports_failure] at hok
    | true =>
      simp only [ns_cmd_verify, h0, h1, h2, hf, hown, hop2, hK, hk, hE, hq] at hr
      simp [hop] at hr
      obtain ⟨rfl, rfl⟩ := hr
      exact ⟨hop, hop2, K, e, rfl, hk, rfl, hq, rfl⟩

/-- What a successful FVERIFY went through. -/
theorem fverify_success_inv (env : Env) (si : sourceinfo) (st : State) (parv : List String)
    (st1 : State) (evs1 : List Event)
    (hr : ns_cmd_fverify env si st parv = some (st1, evs1))
    (hok : reports_failure evs1 = false) :
    ∃ op nick p mu, parv[0]? = some op ∧ parv[1]? = some nick ∧
      myuser_find_ext env st nick = some (p, mu) ∧
      ((strcasecmp op "REGISTER" = 0 ∧ mu.flags &&& env.MU_WAITAUTH ≠ 0 ∧
          metadata_find mu.metadata "private:verify:register:key" ≠ none ∧
          st1 = myuser_write st p (register_done env mu)) ∨
        (strcasecmp op "REGISTER" ≠ 0 ∧ strcasecmp op "EMAILCHG" = 0 ∧
          metadata_find mu.metadata "private:verify:emailchg:key" ≠ none ∧
          ∃ e, metadata_find mu.metadata "private:verify:emailchg:newemail" = some e ∧
            st1 = myuser_write st p (emailchg_done mu e))) := by
  cases h0 : parv[0]? with
  | none =>
    simp [ns_cmd_fverify, h0] at hr
    obtain ⟨rfl, rfl⟩ := hr
    simp [reports_failure] at hok
  | some op =>
  cases h1 : parv[1]? with
  | none =>
    simp [ns_cmd_fverify, h0, h1] at hr
    obtain ⟨rfl, rfl⟩ := hr
    simp [reports_failure] at hok
  | some nick =>
  cases hf : myuser_find_ext env st nick with
  | none =>
    simp [ns_cmd_fverify, h0, h1, hf] at hr
    obtain ⟨rfl, rfl⟩ := hr
    simp [reports_failure] at hok
  | some r =>
  obtain ⟨p, mu⟩ := r
  refine ⟨op, nick, p, mu, rfl, rfl, hf, ?_⟩
  by_cases hop : strcasecmp op "REGISTER" = 0
  · left
    by_cases hc : mu.flags &&& env.MU_WAITAUTH = 0
        ∨ metadata_find mu.metadata "private:verify:register:key" = none
    · simp only [ns_cmd_fverify, h0, h1, hf, hop] at hr
      simp [hc, not_awaiting] at hr
      obtain ⟨rfl, rfl⟩ := hr
      simp [reports_failure] at hok
    · simp only [ns_cmd_fverify, h0, h1, hf, hop] at hr
      simp [hc] at hr
      obtain ⟨rfl, rfl⟩ := hr
      push_neg at hc
      exact ⟨hop, hc.1, hc.2, rfl⟩
  · right
    by_cases hop2 : strcasecmp op "EMAILCHG" = 0
    swap
    · simp [ns_cmd_fverify, h0, h1, hf, hop, hop2] at hr
      obtain ⟨rfl, rfl⟩ := hr
      simp [reports_failure] at hok
    by_cases hK : metadata_find mu.metadata "private:verify:emailchg:key" = none
    · simp only [ns_cmd_fverify, h0, h1, hf, hop2, hK] at hr
      simp [hop, not_awaiting] at hr
      obtain ⟨rfl, rfl⟩ := hr
      simp [reports_failure] at hok
    cases hE : metadata_find mu.metadata "private:verify:emailchg:newemail" with
    | none =>
      simp only [ns_cmd_fverify, h0, h1, hf, hop2, hE] at hr
      simp [hop, hK] at hr
    | some e =>
      simp only [ns_cmd_fverify, h0, h1, hf, hop2, hE] at hr
      simp [hop, hK] at hr
      obtain ⟨rfl, rfl⟩ := hr
      exact ⟨hop, hop2, hK, e, rfl, rfl⟩

theorem myuser_find_write (env : Env) (st : State) (nick : String) (p : Nat)
    (mu mu2 : myuser_t) (hf : myuser_find env st nick = some (p, mu))
    (hn : mu2.name = mu.name) :
    myuser_find env (myuser_write st p mu2) nick = some (p, mu2) := by
  unfold myuser_find at *
  have hp := (heap_find_deref _ _ _ _ hf).2
  exact heap_find_store_found _ _ _ _ _ hf (by simpa [hn] using hp)

theorem myuser_find_ext_write (env : Env) (st : State) (nick : String) (p : Nat)
    (mu mu2 : myuser_t) (hf : myuser_find_ext env st nick = some (p, mu))
    (hn : mu2.name = mu.name) (hk : mu2.nicks = mu.nicks) :
    myuser_find_ext env (myuser_write st p mu2) nick = some (p, mu2) := by
  unfold myuser_find_ext at *
  cases hno : env.no_nick_ownership with
  | true =>
    rw [hno] at hf
    simp only [if_true] at hf ⊢
    exact myuser_find_write env st nick p mu mu2 hf hn
  | false =>
    rw [hno] at hf
    simp only [Bool.false_eq_true, if_false] at hf ⊢
    unfold mynick_find at *
    have hp := (heap_find_deref _ _ _ _ hf).2
    exact heap_find_store_found _ _ _ _ _ hf (by simpa [hk] using hp)

theorem verify_again_not_awaiting (env : Env) (si : sourceinfo) (st : State)
    (parv : List String) (st1 : State) (evs1 : List Event)
    (hr : ns_cmd_verify env si st parv = some (st1, evs1))
    (hok : reports_failure evs1 = false) :
    ∃ nick, parv[1]? = some nick ∧
      ns_cmd_verify env si st1 parv = some (st1, [not_awaiting nick]) := by
  obtain ⟨op, nick, key, p, mu, h0, h1, h2, hf, hown, hcase⟩ :=
    verify_success_inv env si st parv st1 evs1 hr hok
  refine ⟨nick, h1, ?_⟩
  rcases hcase with ⟨hop, _, _, rfl, _⟩ | ⟨hop, hop2, K, e, _, _, _, _, rfl⟩
  · have hf2 := myuser_find_write env st nick p mu (register_done env mu) hf rfl
    have hz : (register_done env mu).flags &&& env.MU_WAITAUTH = 0 := land_lnot32_land _ _
    simp only [ns_cmd_verify, h0, h1, h2, hf2, hown, hop]
    simp [hz]
  · have hf2 := myuser_find_write env st nick p mu (emailchg_done mu e) hf rfl
    have hz : metadata_find (emailchg_done mu e).metadata "private:verify:emailchg:key"
        = none :=
      metadata_find_delete_none _ _ _
        (metadata_find_delete_none _ _ _ (metadata_find_delete_self _ _))
    simp only [ns_cmd_verify, h0, h1, h2, hf2, hown, hop2, hz]
    simp [hop]

theorem fverify_again_not_awaiting (env : Env) (si : sourceinfo) (st : State)
    (parv : List String) (st1 : State) (evs1 : List Event)
    (hr : ns_cmd_fverify env si st parv = some (st1, evs1))
    (hok : reports_failure evs1 = false) :
    ∃ nick, parv[1]? = some nick ∧
      ns_cmd_fverify env si st1 parv = some (st1, [not_awaiting nick]) := by
  obtain ⟨op, nick, p, mu, h0, h1, hf, hcase⟩ :=
    fverify_success_inv env si st parv st1 evs1 hr hok
  refine ⟨nick, h1, ?_⟩
  rcases hcase with ⟨hop, _, _, rfl⟩ | ⟨hop, hop2, _, e, _, rfl⟩
  · have hf2 := myuser_find_ext_write env st nick p mu (register_done env mu) hf rfl rfl
    have hz : (register_done env mu).flags &&& env.MU_WAITAUTH = 0 := land_lnot32_land _ _
    simp only [ns_cmd_fverify, h0, h1, hf2, hop]
    simp [hz]
  · have hf2 := myuser_find_ext_write env st nick p mu (emailchg_done mu e) hf rfl rfl
    have hz : metadata_find (emailchg_done mu e).metadata "private:verify:emailchg:key"
        = none :=
      metadata_find_delete_none _ _ _
        (metadata_find_delete_none _ _ _ (metadata_find_delete_self _ _))
    simp only [ns_cmd_fverify, h0, h1, hf2, hop2, hz]
    simp [hop]

/-- C8: redemption is single-use. After a VERIFY that succeeded (REGISTER, or EMAILCHG with
the address within quota), the same VERIFY on the store it left fails with the not-pending
report and leaves that store (flags, e-mail, metadata) as it is; the same for a second
FVERIFY after a successful FVERIFY. -/
theorem redemption_single_use (env : Env) (si : sourceinfo) (st : State) (parv : List String)
    (st1 : State) (evs1 : List Event) :
    (ns_cmd_verify env si st parv = some (st1, evs1) → reports_failure evs1 = false →
      ∃ nick, parv[1]? = some nick ∧
        ns_cmd_verify env si st1 parv = some (st1, [not_awaiting nick])) ∧
    (ns_cmd_fverify env si st parv = some (st1, evs1) → reports_failure evs1 = false →
      ∃ nick, parv[1]? = some nick ∧
        ns_cmd_fverify env si st1 parv = some (st1, [not_awaiting nick])) :=
  ⟨verify_again_not_awaiting env si st parv st1 evs1,
    fverify_again_not_awaiting env si st parv st1 evs1⟩

/-- C8 at sample inputs: VERIFY REGISTER, VERIFY EMAILCHG and FVERIFY REGISTER, each sent a
second time on the store the first run left. -/
theorem redemption_single_use_witness :
    (∃ nick, ["REGISTER", "pending", "abc"][1]? = some nick ∧
      ns_cmd_verify env0 owner (myuser_write st_pending 0 (register_done env0 pending))
          ["REGISTER", "pending", "abc"] =
        some (myuser_write st_pending 0 (register_done env0 pending), [not_awaiting nick])) ∧
    (∃ nick, ["EMAILCHG", "dave", "k1"][1]? = some nick ∧
      ns_cmd_verify env0 owner
          (myuser_write (st_changing "new@x") 0 (emailchg_done (changing "new@x") "new@x"))
          ["EMAILCHG", "dave", "k1"] =
        some (myuser_write (st_changing "new@x") 0 (emailchg_done (changing "new@x") "new@x"),
          [not_awaiting nick])) ∧
    (∃ nick, ["REGISTER", "pending"][1]? = some nick ∧
      ns_cmd_fverify env0 anon (myuser_write st_pending 0 (register_done env0 pending))
          ["REGISTER", "pending"] =
        some (myuser_write st_pending 0 (register_done env0 pending), [not_awaiting nick])) :=
  ⟨(redemption_single_use env0 owner st_pending ["REGISTER", "pending", "abc"]
      (myuser_write st_pending 0 (register_done env0 pending))
      (verify_register_trace env0 owner st_pending 0 pending)).1 (by decide) (by decide),
    (redemption_single_use env0 owner (st_changing "new@x") ["EMAILCHG", "dave", "k1"]
      (myuser_write (st_changing "new@x") 0 (emailchg_done (changing "new@x") "new@x"))
      [Event.logcommand [.CMDLOG_SET] "VERIFY:EMAILCHG: \x02src\x02 (email: \x02new@x\x02)",
        Event.command_success_nodata "\x02new@x\x02 has now been verified."]).1
      (by decide) (by decide),
    (redemption_single_use env0 anon st_pending ["REGISTER", "pending"]
      (myuser_write st_pending 0 (register_done env0 pending))
      [Event.logcommand [.CMDLOG_REGISTER]
          "FVERIFY:REGISTER: \x02pending\x02 (email: \x02a@x\x02)",
        Event.command_success_nodata "\x02pending\x02 has now been verified.",
        Event.hook_call_user_verify_register 0 (some 0)]).2 (by decide) (by decide)⟩

/-- C9: VERIFY by a source that is not logged in to the account the name resolves to
answers with the single log-in report and leaves the store as it is; the report is the same
text for any two stores in which the name resolves, any operation name and any key. -/
theorem verify_third_party_uniform (env : Env) (si : sourceinfo) (st1 st2 : State)
    (op1 op2 nick key1 key2 : String) (p1 p2 : Nat) (mu1 mu2 : myuser_t)
    (hf1 : myuser_find env st1 nick = some (p1, mu1))
    (hf2 : myuser_find env st2 nick = some (p2, mu2))
    (hn1 : si.smu ≠ some p1) (hn2 : si.smu ≠ some p2) :
    ns_cmd_verify env si st1 [op1, nick, key1] =
        some (st1, [Event.command_fail .fault_badparams
          "Please log in before attempting to verify your registration."]) ∧
      ns_cmd_verify env si st2 [op2, nick, key2] =
        some (st2, [Event.command_fail .fault_badparams
          "Please log in before attempting to verify your registration."]) := by
  constructor
  · have h0 : [op1, nick, key1][0]? = some op1 := rfl
    have h1 : [op1, nick, key1][1]? = some nick := rfl
    have h2 : [op1, nick, key1][2]? = some key1 := rfl
    simp only [ns_cmd_verify, h0, h1, h2, hf1]
    simp [hn1]
  · have h0 : [op2, nick, key2][0]? = some op2 := rfl
    have h1 : [op2, nick, key2][1]? = some nick := rfl
    have h2 : [op2, nick, key2][2]? = some key2 := rfl
    simp only [ns_cmd_verify, h0, h1, h2, hf2]
    simp [hn2]

/-- C9 at a sample input: a source that is logged in to nothing probes an account with a
pending registration, before and after the registration is verified. -/
theorem verify_third_party_uniform_witness :
    ns_cmd_verify env0 anon st_pending ["REGISTER", "pending", "abc"] =
        some (st_pending, [Event.command_fail .fault_badparams
          "Please log in before attempting to verify your registration."]) ∧
      ns_cmd_verify env0 anon (myuser_write st_pending 0 (register_done env0 pending))
          ["EMAILCHG", "pending", "zzz"] =
        some (myuser_write st_pending 0 (register_done env0 pending),
          [Event.command_fail .fault_badparams
            "Please log in before attempting to verify your registration."]) :=
  verify_third_party_uniform env0 anon st_pending
    (myuser_write st_pending 0 (register_done env0 pending)) "REGISTER" "EMAILCHG" "pending"
    "abc" "zzz" 0 0 pending (register_done env0 pending) rfl rfl (by decide) (by decide)

/-- C10, as stated, fails: the account carries `private:verify:emailchg:key` and no
`private:verify:emailchg:newemail`; FVERIFY EMAILCHG reads `md->value` through the null
result of the second lookup and does not succeed. -/
theorem fverify_emailchg_counterexample :
    myuser_find_ext env0 st_keyonly "erin" = some (0, keyonly) ∧
      metadata_find keyonly.metadata "private:verify:emailchg:key" = some "k1" ∧
      metadata_find keyonly.metadata "private:verify:emailchg:newemail" = none ∧
      ns_cmd_fverify env0 anon st_keyonly ["EMAILCHG", "erin"] = none ∧
      ¬ succeeded (ns_cmd_fverify env0 anon st_keyonly ["EMAILCHG", "erin"]) := by
  have hr : ns_cmd_fverify env0 anon st_keyonly ["EMAILCHG", "erin"] = none := by decide
  refine ⟨rfl, rfl, rfl, hr, ?_⟩
  rw [hr]
  intro ⟨_, _, h, _⟩
  cases h

/-- C10, amended: FVERIFY takes no key. On an existing account, with operation REGISTER
(compared without regard to letter case) it succeeds if and only if `MU_WAITAUTH` is set and
`private:verify:register:key` exists; with operation EMAILCHG, on an account whose new-address
record is there whenever the key record is, it succeeds if and only if
`private:verify:emailchg:key` exists; with the marker absent it fails with the not-pending
report and leaves the store as it is; with any other operation name it fails with the
invalid-operation report and leaves the store as it is. -/
theorem fverify_needs_marker (env : Env) (si : sourceinfo) (st : State)
    (op nick : String) (rest : List String) (p : Nat) (mu : myuser_t)
    (hf : myuser_find_ext env st nick = some (p, mu)) :
    (strcasecmp op "REGISTER" = 0 →
      (succeeded (ns_cmd_fverify env si st (op :: nick :: rest)) ↔
        (mu.flags &&& env.MU_WAITAUTH ≠ 0 ∧
          metadata_find mu.metadata "private:verify:register:key" ≠ none)) ∧
      (¬ (mu.flags &&& env.MU_WAITAUTH ≠ 0 ∧
          metadata_find mu.metadata "private:verify:register:key" ≠ none) →
        ns_cmd_fverify env si st (op :: nick :: rest) = some (st, [not_awaiting nick]))) ∧
    (strcasecmp op "EMAILCHG" = 0 →
      ((metadata_find mu.metadata "private:verify:emailchg:key" ≠ none →
          metadata_find mu.metadata "private:verify:emailchg:newemail" ≠ none) →
        (succeeded (ns_cmd_fverify env si st (op :: nick :: rest)) ↔
          metadata_find mu.metadata "private:verify:emailchg:key" ≠ none)) ∧
      (metadata_find mu.metadata "private:verify:emailchg:key" = none →
        ns_cmd_fverify env si st (op :: nick :: rest) = some (st, [not_awaiting nick]))) ∧
    (strcasecmp op "REGISTER" ≠ 0 → strcasecmp op "EMAILCHG" ≠ 0 →
      ns_cmd_fverify env si st (op :: nick :: rest) =
        some (st,
          [Event.command_fail .fault_badparams
              "Invalid operation specified for \x02FVERIFY\x02.",
            Event.command_fail .fault_badparams
              "Valid operations are REGISTER and EMAILCHG."])) := by
  have h0 : (op :: nick :: rest)[0]? = some op := by simp
  have h1 : (op :: nick :: rest)[1]? = some nick := by simp
  have hinv : succeeded (ns_cmd_fverify env si st (op :: nick :: rest)) →
      (strcasecmp op "REGISTER" = 0 ∧ mu.flags &&& env.MU_WAITAUTH ≠ 0 ∧
          metadata_find mu.metadata "private:verify:register:key" ≠ none) ∨
        (strcasecmp op "REGISTER" ≠ 0 ∧ strcasecmp op "EMAILCHG" = 0 ∧
          metadata_find mu.metadata "private:verify:emailchg:key" ≠ none) := by
    intro ⟨st1, evs1, hr, hok⟩
    obtain ⟨op2, nick2, p2, mu2, h0b, h1b, hf2, hc⟩ :=
      fverify_success_inv env si st _ st1 evs1 hr hok
    rw [h0] at h0b
    rw [h1] at h1b
    cases h0b
    cases h1b
    rw [hf] at hf2
    cases hf2
    rcases hc with ⟨a, b, c, _⟩ | ⟨a, b, c, _⟩
    · exact Or.inl ⟨a, b, c⟩
    · exact Or.inr ⟨a, b, c⟩
  refine ⟨?_, ?_, ?_⟩
  · intro hop
    have hfail : ¬ (mu.flags &&& env.MU_WAITAUTH ≠ 0 ∧
        metadata_find mu.metadata "private:verify:register:key" ≠ none) →
        ns_cmd_fverify env si st (op :: nick :: rest) = some (st, [not_awaiting nick]) := by
      intro hn
      have hc : mu.flags &&& env.MU_WAITAUTH = 0
          ∨ metadata_find mu.metadata "private:verify:register:key" = none := by
        by_contra hcon
        push_neg at hcon
        exact hn hcon
      simp only [ns_cmd_fverify, h0, h1, hf, hop]
      simp [hc]
    refine ⟨⟨?_, ?_⟩, hfail⟩
    · intro hs
      rcases hinv hs with ⟨_, b, c⟩ | ⟨a, _, _⟩
      · exact ⟨b, c⟩
      · exact absurd hop a
    · intro ⟨hw, hk⟩
      have hc : ¬ (mu.flags &&& env.MU_WAITAUTH = 0
          ∨ metadata_find mu.metadata "private:verify:register:key" = none) := by
        push_neg
        exact ⟨hw, hk⟩
      refine ⟨myuser_write st p (register_done env mu), fverify_register_trace env st p mu,
        ?_, ?_⟩
      · simp only [ns_cmd_fverify, h0, h1, hf, hop]
        simp [hc, register_done, fverify_register_trace]
      · simp [reports_failure, fverify_register_trace]
  · intro hop
    have hnr := strcasecmp_emailchg_ne_register op hop
    refine ⟨?_, ?_⟩
    · intro hinvar
      constructor
      · intro hs
        rcases hinv hs with ⟨a, _, _⟩ | ⟨_, _, c⟩
        · exact absurd a hnr
        · exact c
      · intro hk
        obtain ⟨e, hE⟩ := Option.ne_none_iff_exists'.1 (hinvar hk)
        refine ⟨myuser_write st p (emailchg_done mu e),
          [Event.logcommand [.CMDLOG_REGISTER]
              ("FVERIFY:EMAILCHG: \x02" ++ mu.name ++ "\x02 (email: \x02" ++ e ++ "\x02)"),
            Event.command_success_nodata ("\x02" ++ e ++ "\x02 has now been verified.")],
          ?_, ?_⟩
        · simp only [ns_cmd_fverify, h0, h1, hf, hop, hE]
          simp [hnr, hk, emailchg_done, myuser_set_email]
        · simp [reports_failure]
    · intro hk
      simp only [ns_cmd_fverify, h0, h1, hf, hop, hk]
      simp [hnr]
  · intro hop hop2
    simp only [ns_cmd_fverify, h0, h1, hf]
    simp [hop, hop2]

/-- C10 amended, at a sample input: FVERIFY with the operation written in lower case on the
account that waits for its registration to be verified. -/
theorem fverify_needs_marker_witness :
    succeeded (ns_cmd_fverify env0 anon st_pending ["register", "pending"]) :=
  ((fverify_needs_marker env0 anon st_pending "register" "pending" [] 0 pending rfl).1
    (by decide)).1.2 ⟨by decide, by decide⟩

/-! ## RESETPASS -/

theorem resetpass_result (env : Env) (si : sourceinfo) (st : State) (name : String)
    (rest : List String) (p : Nat) (mu : myuser_t)
    (hf : myuser_find_by_nick env st name = some (p, mu))
    (hgate : (env.is_soper mu && !env.has_priv si env.PRIV_ADMIN) = false)
    (hmark : metadata_find mu.metadata "private:mark:setter" = none ∨
      env.has_priv si env.PRIV_MARK = true) :
    ns_cmd_resetpass env si st (name :: rest) =
      (myuser_write st p (resetpass_done env si mu), resetpass_trace env si mu) := by
  have h0 : (name :: rest)[0]? = some name := by simp
  cases hm : metadata_find mu.metadata "private:mark:setter" with
  | none =>
    by_cases hnp : mu.flags &&& env.MU_NOPASSWORD = 0
    · simp only [ns_cmd_resetpass, h0, hf, hgate, hm]
      simp [hnp, resetpass_done, resetpass_stored, resetpass_trace, resetpass_audit,
        resetpass_changed, set_password, hm]
    · simp only [ns_cmd_resetpass, h0, hf, hgate, hm]
      simp [hnp, resetpass_done, resetpass_stored, resetpass_trace, resetpass_audit,
        resetpass_changed, set_password, hm]
  | some value =>
    have hp : env.has_priv si env.PRIV_MARK = true := by
      rcases hmark with h | h
      · rw [hm] at h
        cases h
      · exact h
    by_cases hnp : mu.flags &&& env.MU_NOPASSWORD = 0
    · simp only [ns_cmd_resetpass, h0, hf, hgate, hm, hp]
      simp [hnp, resetpass_done, resetpass_stored, resetpass_trace, resetpass_audit,
        resetpass_changed, set_password, hm]
    · simp only [ns_cmd_resetpass, h0, hf, hgate, hm, hp]
      simp [hnp, resetpass_done, resetpass_stored, resetpass_trace, resetpass_audit,
        resetpass_changed, set_password, hm]

/-- C11, as stated, fails: RESETPASS on the account marked by `carol`, by a source without
`PRIV_MARK`, is denied with the fault code `fault_badparams`; the trace holds no
`fault_noprivs` report. -/
theorem resetpass_marked_counterexample :
    metadata_find bob.metadata "private:mark:setter" = some "carol" ∧
      env0.has_priv anon env0.PRIV_MARK = false ∧
      (ns_cmd_resetpass env0 anon st_bob ["bob"]).2 =
        [Event.logcommand [.CMDLOG_ADMIN]
            "failed RESETPASS \x02bob\x02 (marked by \x02carol\x02)",
          Event.command_fail .fault_badparams
            ("This operation cannot be performed on bob, "
              ++ "because the account has been marked by carol.")] ∧
      (ns_cmd_resetpass env0 anon st_bob ["bob"]).2.all
        (fun e => match e with
          | Event.command_fail .fault_noprivs _ => false
          | _ => true) = true := by
  refine ⟨rfl, rfl, by decide, by decide⟩

/-- C11, amended: RESETPASS on an account that carries `private:mark:setter` with value `S`,
by a source that passes the services-operator gate and lacks `PRIV_MARK`, is denied with the
fault code `fault_badparams` (no `fault_noprivs` report is made): the trace is one audit line
and one failure report, both naming `S`, and the store, with the password, flags and
metadata of the account, is left as it is; no credential is generated or shown. -/
theorem resetpass_marked_denied (env : Env) (si : sourceinfo) (st : State) (name S : String)
    (rest : List String) (p : Nat) (mu : myuser_t)
    (hf : myuser_find_by_nick env st name = some (p, mu))
    (hgate : (env.is_soper mu && !env.has_priv si env.PRIV_ADMIN) = false)
    (hmark : metadata_find mu.metadata "private:mark:setter" = some S)
    (hpriv : env.has_priv si env.PRIV_MARK = false) :
    ns_cmd_resetpass env si st (name :: rest) =
      (st, [Event.logcommand [.CMDLOG_ADMIN]
          ("failed RESETPASS \x02" ++ mu.name ++ "\x02 (marked by \x02" ++ S ++ "\x02)"),
        Event.command_fail .fault_badparams
          ("This operation cannot be performed on " ++ mu.name
            ++ ", because the account has been marked by " ++ S ++ ".")]) ∧
      deref (ns_cmd_resetpass env si st (name :: rest)).1.myusers p = some mu ∧
      (∀ m, Event.command_fail .fault_noprivs m ∉
        (ns_cmd_resetpass env si st (name :: rest)).2) := by
  have h0 : (name :: rest)[0]? = some name := by simp
  have hr : ns_cmd_resetpass env si st (name :: rest) =
      (st, [Event.logcommand [.CMDLOG_ADMIN]
          ("failed RESETPASS \x02" ++ mu.name ++ "\x02 (marked by \x02" ++ S ++ "\x02)"),
        Event.command_fail .fault_badparams
          ("This operation cannot be performed on " ++ mu.name
            ++ ", because the account has been marked by " ++ S ++ ".")]) := by
    simp only [ns_cmd_resetpass, h0, hf, hgate, hmark, hpriv]
    simp
  refine ⟨hr, ?_, ?_⟩
  · rw [hr]
    unfold myuser_find_by_nick myuser_find mynick_find at hf
    split_ifs at hf
    · exact (heap_find_deref _ _ _ _ hf).1
    · exact (heap_find_deref _ _ _ _ hf).1
  · intro m
    rw [hr]
    simp

/-- C11 amended, at a sample input: a source without privileges resets the account marked by
`carol`. -/
theorem resetpass_marked_denied_witness :
    ns_cmd_resetpass env0 anon st_bob ["bob"] =
      (st_bob, [Event.logcommand [.CMDLOG_ADMIN]
          ("failed RESETPASS \x02" ++ bob.name ++ "\x02 (marked by \x02" ++ "carol" ++ "\x02)"),
        Event.command_fail .fault_badparams
          ("This operation cannot be performed on " ++ bob.name
            ++ ", because the account has been marked by " ++ "carol" ++ ".")]) :=
  (resetpass_marked_denied env0 anon st_bob "bob" "carol" [] 0 bob rfl rfl rfl rfl).1

theorem myuser_find_by_nick_deref (env : Env) (st : State) (name : String) (p : Nat)
    (mu : myuser_t) (hf : myuser_find_by_nick env st name = some (p, mu)) :
    deref st.myusers p = some mu := by
  unfold myuser_find_by_nick myuser_find mynick_find at hf
  split_ifs at hf
  · exact (heap_find_deref _ _ _ _ hf).1
  · exact (heap_find_deref _ _ _ _ hf).1

theorem metadata_find_delete_ne (md : List (String × String)) (k k2 : String) (h : k ≠ k2) :
    metadata_find (metadata_delete md k2) k = metadata_find md k := by
  unfold metadata_find metadata_delete
  congr 1
  induction md with
  | nil => rfl
  | cons e t ih =>
    obtain ⟨a, b⟩ := e
    by_cases h2 : a = k2
    · subst h2
      have hb : (a == k) = false := by
        simp only [beq_eq_false_iff_ne, ne_eq]
        exact fun c => h c.symm
      simp only [List.filter_cons, beq_self_eq_true, Bool.not_true, Bool.false_eq_true,
        if_false, List.find?_cons, hb]
      exact ih
    · have hb2 : (a == k2) = false := by
        simp only [beq_eq_false_iff_ne, ne_eq]
        exact h2
      simp only [List.filter_cons, hb2, Bool.not_false, if_true, List.find?_cons]
      cases hk : (a == k) with
      | true => rfl
      | false => exact ih

theorem metadata_find_add_ne (md : List (String × String)) (k k2 v : String) (h : k ≠ k2) :
    metadata_find (metadata_add md k2 v) k = metadata_find md k := by
  have hd := metadata_find_delete_ne md k k2 h
  unfold metadata_add
  unfold metadata_find at hd ⊢
  have hb : (k2 == k) = false := by
    simp only [beq_eq_false_iff_ne, ne_eq]
    exact fun c => h c.symm
  simp only [List.find?_cons, hb]
  exact hd

theorem testBit_land_lnot32 (f m i : Nat) (hi : i < 32) (hm : m.testBit i = false) :
    (f &&& lnot32 m).testBit i = f.testBit i := by
  have hlt : m % 2 ^ 32 < 2 ^ 32 := Nat.mod_lt _ (by norm_num)
  have hl : lnot32 m = 2 ^ 32 - (m % 2 ^ 32 + 1) := by
    unfold lnot32
    omega
  rw [Nat.testBit_and, hl, Nat.testBit_two_pow_sub_succ hlt, Nat.testBit_mod_two_pow]
  simp [hi, hm]

theorem string_head_ne (a b : String) (h : a.data.head? ≠ b.data.head?) : a ≠ b := by
  intro e
  exact h (by rw [e])

theorem string_take5_ne (a b : String) (h : a.data.take 5 ≠ b.data.take 5) : a ≠ b := by
  intro e
  exact h (by rw [e])

theorem resetpass_trace_count (env : Env) (si : sourceinfo) (mu : myuser_t) :
    (resetpass_trace env si mu).count (resetpass_changed env mu) = 1 := by
  have h1 : ∀ value : String,
      "Overriding MARK placed by " ++ value ++ " on the account " ++ mu.name ++ "." ≠
        "The password for \x02" ++ mu.name ++ "\x02 has been changed to \x02"
          ++ env.random_string 12 ++ "\x02." := by
    intro value
    apply string_head_ne
    simp [String.data_append]
  have h2 : "The \x02NOPASSWORD\x02 flag has been removed for account \x02"
        ++ mu.name ++ "\x02." ≠
      "The password for \x02" ++ mu.name ++ "\x02 has been changed to \x02"
        ++ env.random_string 12 ++ "\x02." := by
    apply string_take5_ne
    simp [String.data_append]
  unfold resetpass_trace resetpass_changed resetpass_audit
  cases hm : metadata_find mu.metadata "private:mark:setter" with
  | none =>
    by_cases hnp : mu.flags &&& env.MU_NOPASSWORD = 0
    · simp [List.count_cons, hnp]
    · simp [List.count_cons, hnp, h2]
  | some value =>
    by_cases hnp : mu.flags &&& env.MU_NOPASSWORD = 0
    · simp [List.count_cons, hnp, h1 value]
    · simp [List.count_cons, hnp, h1 value, h2]

/-- C12: a RESETPASS that passes authorization (the name resolves; the account is not of a
services operator or the source has `PRIV_ADMIN`; the account is not marked or the source has
`PRIV_MARK`) stores the freshly generated credential as the password of the account, shows
it in exactly one report of a trace without failure report, leaves no
`private:setpass:key`, leaves `MU_NOPASSWORD` clear and every other flag as it was, and logs
exactly one audit line, which carries the wording `overriding mark by` with the setter exactly
when the account carries a mark. The whole result is fixed: the trace is the calls of
`resetpass_before`, which are built without the credential, then the one report that carries
it, then the calls of `resetpass_after`, likewise built without it. -/
theorem resetpass_authorized (env : Env) (si : sourceinfo) (st : State) (name : String)
    (rest : List String) (p : Nat) (mu : myuser_t)
    (hf : myuser_find_by_nick env st name = some (p, mu))
    (hgate : env.is_soper mu = false ∨ env.has_priv si env.PRIV_ADMIN = true)
    (hmark : metadata_find mu.metadata "private:mark:setter" = none ∨
      env.has_priv si env.PRIV_MARK = true) :
    ∃ mu2, deref (ns_cmd_resetpass env si st (name :: rest)).1.myusers p = some mu2 ∧
      mu2.pass = env.random_string 12 ∧
      (ns_cmd_resetpass env si st (name :: rest)).2.count (resetpass_changed env mu) = 1 ∧
      reports_failure (ns_cmd_resetpass env si st (name :: rest)).2 = false ∧
      metadata_find mu2.metadata "private:setpass:key" = none ∧
      mu2.flags &&& env.MU_NOPASSWORD = 0 ∧
      (∀ i, i < 32 → env.MU_NOPASSWORD.testBit i = false →
        mu2.flags.testBit i = mu.flags.testBit i) ∧
      audit_events (ns_cmd_resetpass env si st (name :: rest)).2 = [resetpass_audit mu] ∧
      (∀ S, metadata_find mu.metadata "private:mark:setter" = some S →
        resetpass_audit mu = Event.logcommand [.CMDLOG_ADMIN]
          ("RESETPASS: \x02" ++ mu.name ++ "\x02 (overriding mark by \x02" ++ S ++ "\x02)")) ∧
      (metadata_find mu.metadata "private:mark:setter" = none →
        resetpass_audit mu = Event.logcommand [.CMDLOG_ADMIN]
          ("RESETPASS: \x02" ++ mu.name ++ "\x02")) ∧
      ns_cmd_resetpass env si st (name :: rest) =
        (myuser_write st p (resetpass_done env si mu),
          resetpass_before (env.get_oper_name si) mu ++ [resetpass_changed env mu]
            ++ resetpass_after env.MU_NOPASSWORD mu) ∧
      resetpass_changed env mu ∉ resetpass_before (env.get_oper_name si) mu ∧
      resetpass_changed env mu ∉ resetpass_after env.MU_NOPASSWORD mu := by
  have hg : (env.is_soper mu && !env.has_priv si env.PRIV_ADMIN) = false := by
    rcases hgate with h | h <;> simp [h]
  have hd := myuser_find_by_nick_deref env st name p mu hf
  rw [resetpass_result env si st name rest p mu hf hg hmark]
  have hkey : metadata_find (resetpass_stored env si mu).metadata "private:setpass:key"
      = none := by
    unfold resetpass_stored
    rw [metadata_find_add_ne _ _ _ _ (by decide), metadata_find_add_ne _ _ _ _ (by decide)]
    exact metadata_find_delete_self _ _
  have hsplit : resetpass_trace env si mu =
      resetpass_before (env.get_oper_name si) mu ++ [resetpass_changed env mu]
        ++ resetpass_after env.MU_NOPASSWORD mu := by
    unfold resetpass_trace resetpass_before resetpass_after
    cases metadata_find mu.metadata "private:mark:setter" <;> rfl
  have hcount := resetpass_trace_count env si mu
  have hparts : resetpass_changed env mu ∉ resetpass_before (env.get_oper_name si) mu ∧
      resetpass_changed env mu ∉ resetpass_after env.MU_NOPASSWORD mu := by
    rw [hsplit] at hcount
    simp only [List.count_append, List.count_cons_self, List.count_nil] at hcount
    constructor
    · intro hmem
      have := List.count_pos_iff.2 hmem
      omega
    · intro hmem
      have := List.count_pos_iff.2 hmem
      omega
  refine ⟨resetpass_done env si mu, deref_store_self _ _ _ _ hd, ?_, resetpass_trace_count env si mu,
    ?_, ?_, ?_, ?_, ?_, ?_, ?_, by rw [hsplit], hparts.1, hparts.2⟩
  · unfold resetpass_done
    split_ifs <;> rfl
  · unfold resetpass_trace resetpass_changed resetpass_audit
    cases metadata_find mu.metadata "private:mark:setter" <;>
      by_cases hnp : mu.flags &&& env.MU_NOPASSWORD = 0 <;> simp [reports_failure, hnp]
  · unfold resetpass_done
    split_ifs <;> exact hkey
  · unfold resetpass_done
    split_ifs with hnp
    · exact land_lnot32_land _ _
    · simpa [resetpass_stored] using hnp
  · intro i hi hb
    unfold resetpass_done
    split_ifs with hnp
    · exact testBit_land_lnot32 _ _ _ hi hb
    · rfl
  · unfold resetpass_trace resetpass_changed resetpass_audit
    cases metadata_find mu.metadata "private:mark:setter" <;>
      by_cases hnp : mu.flags &&& env.MU_NOPASSWORD = 0 <;> simp [audit_events, hnp]
  · intro S hS
    simp [resetpass_audit, hS]
  · intro hN
    simp [resetpass_audit, hN]

/-- C12 at a sample input: a source with every privilege resets the password of the account
marked by `carol`, which has `MU_NOPASSWORD` set. -/
theorem resetpass_authorized_witness :
    ∃ mu2, deref (ns_cmd_resetpass env_priv anon st_bob ["bob"]).1.myusers 0 = some mu2 ∧
      mu2.pass = env_priv.random_string 12 ∧
      (ns_cmd_resetpass env_priv anon st_bob ["bob"]).2.count (resetpass_changed env_priv bob)
        = 1 ∧
      reports_failure (ns_cmd_resetpass env_priv anon st_bob ["bob"]).2 = false ∧
      metadata_find mu2.metadata "private:setpass:key" = none ∧
      mu2.flags &&& env_priv.MU_NOPASSWORD = 0 ∧
      (∀ i, i < 32 → env_priv.MU_NOPASSWORD.testBit i = false →
        mu2.flags.testBit i = bob.flags.testBit i) ∧
      audit_events (ns_cmd_resetpass env_priv anon st_bob ["bob"]).2 = [resetpass_audit bob] ∧
      (∀ S, metadata_find bob.metadata "private:mark:setter" = some S →
        resetpass_audit bob = Event.logcommand [.CMDLOG_ADMIN]
          ("RESETPASS: \x02" ++ bob.name ++ "\x02 (overriding mark by \x02" ++ S ++ "\x02)")) ∧
      (metadata_find bob.metadata "private:mark:setter" = none →
        resetpass_audit bob = Event.logcommand [.CMDLOG_ADMIN]
          ("RESETPASS: \x02" ++ bob.name ++ "\x02")) ∧
      ns_cmd_resetpass env_priv anon st_bob ["bob"] =
        (myuser_write st_bob 0 (resetpass_done env_priv anon bob),
          resetpass_before (env_priv.get_oper_name anon) bob ++ [resetpass_changed env_priv bob]
            ++ resetpass_after env_priv.MU_NOPASSWORD bob) ∧
      resetpass_changed env_priv bob ∉ resetpass_before (env_priv.get_oper_name anon) bob ∧
      resetpass_changed env_priv bob ∉ resetpass_after env_priv.MU_NOPASSWORD bob :=
  resetpass_authorized env_priv anon st_bob "bob" [] 0 bob rfl (Or.inl rfl) (Or.inr rfl)

/-- C20: RESETPASS on an account of a services operator by a source without `PRIV_ADMIN`
fails, whether or not the account is marked and whatever else the source holds: the trace
is the one audit line `failed RESETPASS` and the one failure report, and the store, with the
password, flags and metadata of the account, is left as it is. -/
theorem resetpass_soper_denied (env : Env) (si : sourceinfo) (st : State) (name : String)
    (rest : List String) (p : Nat) (mu : myuser_t)
    (hf : myuser_find_by_nick env st name = some (p, mu))
    (hso : env.is_soper mu = true) (hadm : env.has_priv si env.PRIV_ADMIN = false) :
    ns_cmd_resetpass env si st (name :: rest) =
      (st, [Event.logcommand [.CMDLOG_ADMIN]
          ("failed RESETPASS \x02" ++ name ++ "\x02 (is SOPER)"),
        Event.command_fail .fault_badparams
          ("\x02" ++ name ++ "\x02 belongs to a services operator; you need "
            ++ env.PRIV_ADMIN ++ " privilege to reset the password.")]) ∧
      deref (ns_cmd_resetpass env si st (name :: rest)).1.myusers p = some mu ∧
      audit_events (ns_cmd_resetpass env si st (name :: rest)).2 =
        [Event.logcommand [.CMDLOG_ADMIN]
          ("failed RESETPASS \x02" ++ name ++ "\x02 (is SOPER)")] := by
  have h0 : (name :: rest)[0]? = some name := by simp
  have hr : ns_cmd_resetpass env si st (name :: rest) =
      (st, [Event.logcommand [.CMDLOG_ADMIN]
          ("failed RESETPASS \x02" ++ name ++ "\x02 (is SOPER)"),
        Event.command_fail .fault_badparams
          ("\x02" ++ name ++ "\x02 belongs to a services operator; you need "
            ++ env.PRIV_ADMIN ++ " privilege to reset the password.")]) := by
    simp only [ns_cmd_resetpass, h0, hf, hso, hadm]
    simp
  refine ⟨hr, ?_, ?_⟩
  · rw [hr]
    exact myuser_find_by_nick_deref env st name p mu hf
  · rw [hr]
    simp [audit_events]

/-- C20 at a sample input: a source without privileges resets the account of a services
operator. -/
theorem resetpass_soper_denied_witness :
    ns_cmd_resetpass env0 anon st_root ["oper"] =
      (st_root, [Event.logcommand [.CMDLOG_ADMIN]
          ("failed RESETPASS \x02" ++ "oper" ++ "\x02 (is SOPER)"),
        Event.command_fail .fault_badparams
          ("\x02" ++ "oper" ++ "\x02 belongs to a services operator; you need "
            ++ env0.PRIV_ADMIN ++ " privilege to reset the password.")]) :=
  (resetpass_soper_denied env0 anon st_root "oper" [] 0 root rfl rfl rfl).1

/-! ## SET GROUPNAME -/

/-- C13: SET GROUPNAME with two names that start with `!`, the old one resolving to a group
of which the source is founder and the new one resolving to another existing group, fails
with `fault_nochange`; nothing is renamed and nothing is logged, the store is left as it
is. -/
theorem groupname_taken_conflict (env : Env) (si : sourceinfo) (st : State)
    (oldname newname : String) (g f : Nat) (E F : mygroup_t)
    (hold : oldname.data.head? = some '!') (hnew : newname.data.head? = some '!')
    (hfE : mygroup_find env st oldname = some (g, E))
    (hfounder : env.groupacs_founder E si = true)
    (hfF : mygroup_find env st newname = some (f, F)) (_hne : f ≠ g) :
    (∃ m, gs_cmd_set_groupname env si st [oldname, newname] =
      (st, [Event.command_fail .fault_nochange m])) ∧
    deref (gs_cmd_set_groupname env si st [oldname, newname]).1.mygroups g = some E := by
  have hd : deref st.mygroups g = some E := (heap_find_deref _ _ _ _ hfE).1
  have hr : ∃ m, gs_cmd_set_groupname env si st [oldname, newname] =
      (st, [Event.command_fail .fault_nochange m]) := by
    by_cases hs : strcmp E.name newname = 0
    · simp only [gs_cmd_set_groupname, hfE, hfounder, hs]
      simp [hold, hnew]
    · simp only [gs_cmd_set_groupname, hfE, hfounder, hfF]
      simp [hold, hnew, hs]
  refine ⟨hr, ?_⟩
  obtain ⟨m, hm⟩ := hr
  rw [hm]
  exact hd

/-- C13 at a sample input: the founder of `!dev` asks for the name of the group `!ops`. -/
theorem groupname_taken_conflict_witness :
    (∃ m, gs_cmd_set_groupname env0 anon st_groups ["!dev", "!ops"] =
      (st_groups, [Event.command_fail .fault_nochange m])) ∧
    deref (gs_cmd_set_groupname env0 anon st_groups ["!dev", "!ops"]).1.mygroups 0
      = some (grp "!dev") :=
  groupname_taken_conflict env0 anon st_groups "!dev" "!ops" 0 1 (grp "!dev") (grp "!ops")
    rfl rfl rfl rfl rfl (by decide)

/-- C14: SET GROUPNAME with the same name `N` twice, `N` starting with `!` and resolving to
a group of which the source is founder, fails with `fault_nochange` and renames nothing: with
the report that the name is already set when `N` is spelled as the stored name, and with the
report that the group already exists when the spelling differs (the second lookup of `N`
finds the group again). -/
theorem groupname_same_conflict (env : Env) (si : sourceinfo) (st : State) (N : String)
    (g : Nat) (E : mygroup_t) (hN : N.data.head? = some '!')
    (hfE : mygroup_find env st N = some (g, E))
    (hfounder : env.groupacs_founder E si = true) :
    (E.name = N → gs_cmd_set_groupname env si st [N, N] =
      (st, [Event.command_fail .fault_nochange
        ("The group name is already set to \x02" ++ N ++ "\x02.")])) ∧
    (E.name ≠ N → gs_cmd_set_groupname env si st [N, N] =
      (st, [Event.command_fail .fault_nochange
        ("The group \x02" ++ N ++ "\x02 already exists.")])) ∧
    (gs_cmd_set_groupname env si st [N, N]).1 = st := by
  have h1 : E.name = N → gs_cmd_set_groupname env si st [N, N] =
      (st, [Event.command_fail .fault_nochange
        ("The group name is already set to \x02" ++ N ++ "\x02.")]) := by
    intro he
    have hs : strcmp E.name N = 0 := (strcmp_eq_zero_iff _ _).2 he
    simp only [gs_cmd_set_groupname, hfE, hfounder, hs]
    simp [hN]
  have h2 : E.name ≠ N → gs_cmd_set_groupname env si st [N, N] =
      (st, [Event.command_fail .fault_nochange
        ("The group \x02" ++ N ++ "\x02 already exists.")]) := by
    intro he
    have hs : ¬ strcmp E.name N = 0 := fun c => he ((strcmp_eq_zero_iff _ _).1 c)
    simp only [gs_cmd_set_groupname, hfE, hfounder]
    simp [hN, hs]
  refine ⟨h1, h2, ?_⟩
  by_cases he : E.name = N
  · rw [h1 he]
  · rw [h2 he]

/-- C14 at a sample input: the registry folds letter case, the group is stored as `!dev`
and the founder sends `!DEV` twice. -/
theorem groupname_same_conflict_witness :
    gs_cmd_set_groupname env_fold anon st_groups ["!DEV", "!DEV"] =
      (st_groups, [Event.command_fail .fault_nochange
        ("The group \x02" ++ "!DEV" ++ "\x02 already exists.")]) :=
  (groupname_same_conflict env_fold anon st_groups "!DEV" 0 (grp "!dev") rfl (by decide)
    rfl).2.1 (by decide)

/-! ## Parameter validation -/

/-- C15: parameter validation comes before target resolution in all six commands. With a
required parameter missing (DROP: account or password; FDROP: account; RESETPASS: account;
VERIFY: operation, account or key; FVERIFY: operation or account; SET GROUPNAME: a parameter
count other than 2) the command answers with two `fault_needmoreparams` reports, and SET
GROUPNAME with a name that does not start with `!` answers with two `fault_badparams`
reports; the store is returned as it is and the reports do not depend on the store. -/
theorem validation_before_resolution (env : Env) (si : sourceinfo) (st : State)
    (parv : List String) :
    ((parv[0]? = none ∨ parv[1]? = none) →
      cmd_ns_drop_func env si st parv =
        (st, [Event.command_fail .fault_needmoreparams (env.STR_INSUFFICIENT_PARAMS "DROP"),
          Event.command_fail .fault_needmoreparams "Syntax: DROP <account> <password>"])) ∧
    (parv[0]? = none →
      cmd_ns_fdrop_func env si st parv =
        (st, [Event.command_fail .fault_needmoreparams (env.STR_INSUFFICIENT_PARAMS "FDROP"),
          Event.command_fail .fault_needmoreparams "Syntax: FDROP <account>"])) ∧
    (parv[0]? = none →
      ns_cmd_resetpass env si st parv =
        (st, [Event.command_fail .fault_needmoreparams (env.STR_INVALID_PARAMS "RESETPASS"),
          Event.command_fail .fault_needmoreparams "Syntax: RESETPASS <account>"])) ∧
    ((parv[0]? = none ∨ parv[1]? = none ∨ parv[2]? = none) →
      ns_cmd_verify env si st parv =
        some (st,
          [Event.command_fail .fault_needmoreparams (env.STR_INSUFFICIENT_PARAMS "VERIFY"),
            Event.command_fail .fault_needmoreparams
              "Syntax: VERIFY <operation> <account> <key>"])) ∧
    ((parv[0]? = none ∨ parv[1]? = none) →
      ns_cmd_fverify env si st parv =
        some (st,
          [Event.command_fail .fault_needmoreparams (env.STR_INSUFFICIENT_PARAMS "FVERIFY"),
            Event.command_fail .fault_needmoreparams
              "Syntax: FVERIFY <operation> <account>"])) ∧
    (parv.length ≠ 2 →
      gs_cmd_set_groupname env si st parv =
        (st,
          [Event.command_fail .fault_needmoreparams (env.STR_INSUFFICIENT_PARAMS "GROUPNAME"),
            Event.command_fail .fault_needmoreparams
              "Syntax: SET GROUPNAME <oldname> <newname>"])) ∧
    (∀ oldname newname, parv = [oldname, newname] →
      (oldname.data.head? ≠ some '!' ∨ newname.data.head? ≠ some '!') →
      gs_cmd_set_groupname env si st parv =
        (st, [Event.command_fail .fault_badparams (env.STR_INVALID_PARAMS "GROUPNAME"),
          Event.command_fail .fault_badparams
            "Syntax: SET GROUPNAME <oldname> <newname>"])) := by
  refine ⟨?_, ?_, ?_, ?_, ?_, ?_, ?_⟩
  · intro h
    cases h0 : parv[0]? with
    | none => simp [cmd_ns_drop_func, h0]
    | some acc =>
      rcases h with h | h
      · rw [h0] at h
        cases h
      · simp [cmd_ns_drop_func, h0, h]
  · intro h
    simp [cmd_ns_fdrop_func, h]
  · intro h
    simp [ns_cmd_resetpass, h]
  · intro h
    cases h0 : parv[0]? with
    | none => simp [ns_cmd_verify, h0]
    | some op =>
      cases h1 : parv[1]? with
      | none => simp [ns_cmd_verify, h0, h1]
      | some nick =>
        rcases h with h | h | h
        · rw [h0] at h
          cases h
        · rw [h1] at h
          cases h
        · simp [ns_cmd_verify, h0, h1, h]
  · intro h
    cases h0 : parv[0]? with
    | none => simp [ns_cmd_fverify, h0]
    | some op =>
      rcases h with h | h
      · rw [h0] at h
        cases h
      · simp [ns_cmd_fverify, h0, h]
  · intro h
    match parv, h with
    | [], _ => rfl
    | [_], _ => rfl
    | [_, _], h => exact absurd rfl h
    | _ :: _ :: _ :: _, _ => rfl
  · intro oldname newname hp h
    subst hp
    simp only [gs_cmd_set_groupname]
    rw [if_pos h]

/-- C15 at a sample input: DROP without a password. -/
theorem validation_before_resolution_witness :
    cmd_ns_drop_func env0 anon st_alice ["alice"] =
      (st_alice,
        [Event.command_fail .fault_needmoreparams (env0.STR_INSUFFICIENT_PARAMS "DROP"),
          Event.command_fail .fault_needmoreparams "Syntax: DROP <account> <password>"]) :=
  (validation_before_resolution env0 anon st_alice ["alice"]).1 (Or.inr rfl)

/-! ## The penalty hook of DROP -/

/-- The three ways a DROP can end with respect to `fault_authfail` and `bad_password`: the
account is frozen, the password check failed, or neither of the two shows in the trace. -/
theorem drop_authfail_cases (env : Env) (si : sourceinfo) (st : State) (parv : List String) :
    (∃ acc pass p mu v, parv[0]? = some acc ∧ parv[1]? = some pass ∧
      myuser_find env st acc = some (p, mu) ∧
      metadata_find mu.metadata "private:freeze:freezer" = some v ∧
      ∃ m, cmd_ns_drop_func env si st parv = (st, [Event.command_fail .fault_authfail m])) ∨
    (∃ acc pass p mu, parv[0]? = some acc ∧ parv[1]? = some pass ∧
      myuser_find env st acc = some (p, mu) ∧
      metadata_find mu.metadata "private:freeze:freezer" = none ∧
      env.verify_password mu pass = false ∧
      cmd_ns_drop_func env si st parv =
        (st, [Event.command_fail .fault_authfail
            ("Authentication failed. Invalid password for \x02" ++ mu.name ++ "\x02."),
          Event.bad_password p])) ∨
    ((∀ q, Event.bad_password q ∉ (cmd_ns_drop_func env si st parv).2) ∧
      (∀ m, Event.command_fail .fault_authfail m ∉ (cmd_ns_drop_func env si st parv).2)) := by
  cases h0 : parv[0]? with
  | none => simp [cmd_ns_drop_func, h0]
  | some acc =>
  cases h1 : parv[1]? with
  | none => simp [cmd_ns_drop_func, h0, h1]
  | some pass =>
  cases hf : myuser_find env st acc with
  | none =>
    right
    right
    simp only [cmd_ns_drop_func, h0, h1, hf]
    split <;> simp
  | some r =>
  obtain ⟨p, mu⟩ := r
  cases hfr : metadata_find mu.metadata "private:freeze:freezer" with
  | some v =>
    left
    refine ⟨acc, pass, p, mu, v, rfl, rfl, hf, hfr, ?_⟩
    simp only [cmd_ns_drop_func, h0, h1, hf, hfr]
    simp
  | none =>
  cases hpw : env.verify_password mu pass with
  | false =>
    right
    left
    refine ⟨acc, pass, p, mu, rfl, rfl, hf, hfr, hpw, ?_⟩
    simp only [cmd_ns_drop_func, h0, h1, hf, hfr, hpw]
    simp
  | true =>
  right
  right
  cases hgrp : ((!env.no_nick_ownership) && (decide (mu.nicks.length > 1)
      && command_find si.commands "UNGROUP")) with
  | true =>
    simp only [cmd_ns_drop_func, h0, h1, hf, hfr, hpw, hgrp]
    simp
  | false =>
  cases hso : env.is_soper mu with
  | true =>
    simp only [cmd_ns_drop_func, h0, h1, hf, hfr, hpw, hgrp, hso]
    simp
  | false =>
  by_cases hhold : mu.flags &&& env.MU_HOLD = 0
  swap
  · simp only [cmd_ns_drop_func, h0, h1, hf, hfr, hpw, hgrp, hso]
    simp [hhold]
  cases hch : env.create_weak_challenge si mu.name with
  | none =>
    simp only [cmd_ns_drop_func, h0, h1, hf, hfr, hpw, hgrp, hso, hch]
    simp [hhold]
  | some ch =>
  cases h2 : parv[2]? with
  | none =>
    simp only [cmd_ns_drop_func, h0, h1, hf, hfr, hpw, hgrp, hso, hch, h2]
    simp [hhold]
  | some key =>
  by_cases hk : strcmp ch key = 0
  · simp only [cmd_ns_drop_func, h0, h1, hf, hfr, hpw, hgrp, hso, hch, h2]
    cases env.no_nick_ownership <;> simp [hhold, hk]
  · simp only [cmd_ns_drop_func, h0, h1, hf, hfr, hpw, hgrp, hso, hch, h2]
    simp [hhold, hk]

/-- C16, as stated, fails: DROP on a frozen account fails with `fault_authfail` and does
not call `bad_password`. -/
theorem drop_frozen_counterexample :
    myuser_find env0 st_frozen "frozen" = some (0, frozen) ∧
      cmd_ns_drop_func env0 anon st_frozen ["frozen", "pw"] =
        (st_frozen, [Event.command_fail .fault_authfail
          "You cannot identify to \x02frozen\x02 because the nickname has been frozen."]) ∧
      Event.bad_password 0 ∉ (cmd_ns_drop_func env0 anon st_frozen ["frozen", "pw"]).2 := by
  refine ⟨rfl, by decide, by decide⟩

/-- C16, amended: a DROP whose password check fails (the account resolves, is not frozen, and
`verify_password` rejects the password) reports `fault_authfail` and calls `bad_password`
exactly once, for the target; no DROP that ends in another way calls it; a DROP on a frozen
account reports `fault_authfail` as well and does not call it, and it is the only other DROP
that reports `fault_authfail`. -/
theorem drop_penalty_on_bad_password (env : Env) (si : sourceinfo) (st : State)
    (parv : List String) :
    (∀ acc pass p mu, parv[0]? = some acc → parv[1]? = some pass →
      myuser_find env st acc = some (p, mu) →
      metadata_find mu.metadata "private:freeze:freezer" = none →
      env.verify_password mu pass = false →
      cmd_ns_drop_func env si st parv =
          (st, [Event.command_fail .fault_authfail
              ("Authentication failed. Invalid password for \x02" ++ mu.name ++ "\x02."),
            Event.bad_password p]) ∧
        (cmd_ns_drop_func env si st parv).2.count (Event.bad_password p) = 1) ∧
    (∀ q, Event.bad_password q ∈ (cmd_ns_drop_func env si st parv).2 →
      ∃ acc pass mu, parv[0]? = some acc ∧ parv[1]? = some pass ∧
        myuser_find env st acc = some (q, mu) ∧
        metadata_find mu.metadata "private:freeze:freezer" = none ∧
        env.verify_password mu pass = false) ∧
    (∀ m, Event.command_fail .fault_authfail m ∈ (cmd_ns_drop_func env si st parv).2 →
      (∀ q, Event.bad_password q ∉ (cmd_ns_drop_func env si st parv).2) →
      ∃ acc p mu, parv[0]? = some acc ∧ myuser_find env st acc = some (p, mu) ∧
        metadata_find mu.metadata "private:freeze:freezer" ≠ none) ∧
    (∀ acc pass p mu v, parv[0]? = some acc → parv[1]? = some pass →
      myuser_find env st acc = some (p, mu) →
      metadata_find mu.metadata "private:freeze:freezer" = some v →
      cmd_ns_drop_func env si st parv =
          (st, [Event.command_fail .fault_authfail
            (if env.no_nick_ownership then
              "You cannot login as \x02" ++ mu.name
                ++ "\x02 because the account has been frozen."
            else
              "You cannot identify to \x02" ++ mu.name
                ++ "\x02 because the nickname has been frozen.")]) ∧
        (∀ q, Event.bad_password q ∉ (cmd_ns_drop_func env si st parv).2)) := by
  refine ⟨?_, ?_, ?_, ?_⟩
  rotate_left 3
  · intro acc pass p mu v h0 h1 hf hfr
    have hr : cmd_ns_drop_func env si st parv =
        (st, [Event.command_fail .fault_authfail
          (if env.no_nick_ownership then
            "You cannot login as \x02" ++ mu.name
              ++ "\x02 because the account has been frozen."
          else
            "You cannot identify to \x02" ++ mu.name
              ++ "\x02 because the nickname has been frozen.")]) := by
      simp only [cmd_ns_drop_func, h0, h1, hf, hfr]
      simp
    refine ⟨hr, ?_⟩
    intro q
    rw [hr]
    simp
  · intro acc pass p mu h0 h1 hf hfr hpw
    have hr : cmd_ns_drop_func env si st parv =
        (st, [Event.command_fail .fault_authfail
            ("Authentication failed. Invalid password for \x02" ++ mu.name ++ "\x02."),
          Event.bad_password p]) := by
      simp only [cmd_ns_drop_func, h0, h1, hf, hfr, hpw]
      simp
    refine ⟨hr, ?_⟩
    rw [hr]
    simp [List.count_cons]
  · intro q hq
    rcases drop_authfail_cases env si st parv with
      ⟨_, _, _, _, _, _, _, _, _, m, hr⟩ | ⟨acc, pass, p, mu, h0, h1, hf, hfr, hpw, hr⟩ | ⟨hn, _⟩
    · rw [hr] at hq
      simp at hq
    · rw [hr] at hq
      simp at hq
      subst hq
      exact ⟨acc, pass, mu, h0, h1, hf, hfr, hpw⟩
    · exact absurd hq (hn q)
  · intro m hm hnb
    rcases drop_authfail_cases env si st parv with
      ⟨acc, _, p, mu, v, h0, _, hf, hfr, _, _⟩ | ⟨_, _, p, _, _, _, _, _, _, hr⟩ | ⟨_, hn⟩
    · exact ⟨acc, p, mu, h0, hf, by rw [hfr]; simp⟩
    · exfalso
      apply hnb p
      rw [hr]
      simp
    · exact absurd hm (hn m)

/-- C16 amended, at sample inputs: DROP on the sample account with a wrong password, and
DROP on the frozen sample account. -/
theorem drop_penalty_on_bad_password_witness :
    (cmd_ns_drop_func env0 anon st_alice ["alice", "bad"] =
        (st_alice, [Event.command_fail .fault_authfail
            ("Authentication failed. Invalid password for \x02" ++ alice.name ++ "\x02."),
          Event.bad_password 0]) ∧
      (cmd_ns_drop_func env0 anon st_alice ["alice", "bad"]).2.count (Event.bad_password 0)
        = 1) ∧
    (cmd_ns_drop_func env0 anon st_frozen ["frozen", "pw"] =
        (st_frozen, [Event.command_fail .fault_authfail
          (if env0.no_nick_ownership then
            "You cannot login as \x02" ++ frozen.name
              ++ "\x02 because the account has been frozen."
          else
            "You cannot identify to \x02" ++ frozen.name
              ++ "\x02 because the nickname has been frozen.")]) ∧
      (∀ q, Event.bad_password q ∉ (cmd_ns_drop_func env0 anon st_frozen ["frozen", "pw"]).2)) :=
  ⟨(drop_penalty_on_bad_password env0 anon st_alice ["alice", "bad"]).1 "alice" "bad" 0 alice
      rfl rfl rfl rfl rfl,
    (drop_penalty_on_bad_password env0 anon st_frozen ["frozen", "pw"]).2.2.2 "frozen" "pw" 0
      frozen "admin" rfl rfl rfl rfl⟩

/-! ## Failing runs of VERIFY and FVERIFY -/

theorem verify_failure_inv (env : Env) (si : sourceinfo) (st : State) (parv : List String)
    (st1 : State) (evs1 : List Event)
    (hr : ns_cmd_verify env si st parv = some (st1, evs1))
    (hfail : reports_failure evs1 = true) : st1 = st ∧ hook_events evs1 = [] := by
  unfold ns_cmd_verify at hr
  repeat' split at hr
  all_goals
    simp only [Option.some.injEq, Prod.mk.injEq, reduceCtorEq] at hr
  all_goals
    obtain ⟨rfl, rfl⟩ := hr
  all_goals
    simp [reports_failure, hook_events, not_awaiting] at hfail ⊢

theorem fverify_failure_inv (env : Env) (si : sourceinfo) (st : State) (parv : List String)
    (st1 : State) (evs1 : List Event)
    (hr : ns_cmd_fverify env si st parv = some (st1, evs1))
    (hfail : reports_failure evs1 = true) : st1 = st ∧ hook_events evs1 = [] := by
  unfold ns_cmd_fverify at hr
  repeat' split at hr
  all_goals
    simp only [Option.some.injEq, Prod.mk.injEq, reduceCtorEq] at hr
  all_goals
    obtain ⟨rfl, rfl⟩ := hr
  all_goals
    simp [reports_failure, hook_events, not_awaiting] at hfail ⊢

theorem hook_events_logins (l : List String) (p : Nat) :
    hook_events (l.map (fun u => Event.ircd_on_login u p)) =
      l.map (fun u => Event.ircd_on_login u p) := by
  induction l with
  | nil => rfl
  | cons u t ih =>
    unfold hook_events at ih ⊢
    simp only [List.map_cons, List.filter_cons, if_true]
    rw [ih]

/-- C17: a successful VERIFY REGISTER (logged-in owner, `MU_WAITAUTH` set, stored key
matched) and a successful FVERIFY REGISTER leave the account with `MU_WAITAUTH` clear and
every other flag as it was, with `private:verify:register:key` and
`private:verify:register:timestamp` absent and every other metadata entry as it was; the
hook calls of the trace are `ircd_on_login` once for each session of the login list, in list
order, and then the registration-verified hook once; a run that ends with a failure report
calls neither hook. -/
theorem register_verified_effects (env : Env) (si : sourceinfo) (st : State) (p : Nat)
    (mu : myuser_t) :
    (∀ op nick key K, si.smu = some p → myuser_find env st nick = some (p, mu) →
      strcasecmp op "REGISTER" = 0 → mu.flags &&& env.MU_WAITAUTH ≠ 0 →
      metadata_find mu.metadata "private:verify:register:key" = some K →
      strcasecmp key K = 0 →
      ns_cmd_verify env si st [op, nick, key] =
          some (myuser_write st p (register_done env mu),
            verify_register_trace env si st p mu) ∧
        deref (myuser_write st p (register_done env mu)).myusers p
          = some (register_done env mu)) ∧
    (∀ op nick, myuser_find_ext env st nick = some (p, mu) →
      strcasecmp op "REGISTER" = 0 → mu.flags &&& env.MU_WAITAUTH ≠ 0 →
      metadata_find mu.metadata "private:verify:register:key" ≠ none →
      ns_cmd_fverify env si st [op, nick] =
          some (myuser_write st p (register_done env mu), fverify_register_trace env st p mu) ∧
        deref (myuser_write st p (register_done env mu)).myusers p
          = some (register_done env mu)) ∧
    (register_done env mu).flags &&& env.MU_WAITAUTH = 0 ∧
    (∀ i, i < 32 → env.MU_WAITAUTH.testBit i = false →
      (register_done env mu).flags.testBit i = mu.flags.testBit i) ∧
    metadata_find (register_done env mu).metadata "private:verify:register:key" = none ∧
    metadata_find (register_done env mu).metadata "private:verify:register:timestamp"
      = none ∧
    (∀ k, k ≠ "private:verify:register:key" → k ≠ "private:verify:register:timestamp" →
      metadata_find (register_done env mu).metadata k = metadata_find mu.metadata k) ∧
    hook_events (verify_register_trace env si st p mu) =
      mu.logins.map (fun u => Event.ircd_on_login u p)
        ++ [Event.hook_call_user_verify_register p
          ((mynick_find env (myuser_write st p (register_done env mu)) mu.name).map
            (fun r => r.1))] ∧
    hook_events (fverify_register_trace env st p mu) =
      mu.logins.map (fun u => Event.ircd_on_login u p)
        ++ [Event.hook_call_user_verify_register p
          ((mynick_find env (myuser_write st p (register_done env mu)) mu.name).map
            (fun r => r.1))] ∧
    (∀ parv st1 evs1, ns_cmd_verify env si st parv = some (st1, evs1) →
      reports_failure evs1 = true → hook_events evs1 = []) ∧
    (∀ parv st1 evs1, ns_cmd_fverify env si st parv = some (st1, evs1) →
      reports_failure evs1 = true → hook_events evs1 = []) := by
  refine ⟨?_, ?_, land_lnot32_land _ _, ?_, ?_, ?_, ?_, ?_, ?_, ?_, ?_⟩
  · intro op nick key K hown hf hop hw hK hk
    have h0 : [op, nick, key][0]? = some op := rfl
    have h1 : [op, nick, key][1]? = some nick := rfl
    have h2 : [op, nick, key][2]? = some key := rfl
    refine ⟨?_, deref_store_self _ _ _ _ (heap_find_deref _ _ _ _ hf).1⟩
    simp only [ns_cmd_verify, h0, h1, h2, hf, hown, hop, hK, hk]
    simp [hw, register_done, verify_register_trace]
  · intro op nick hf hop hw hK
    have h0 : [op, nick][0]? = some op := rfl
    have h1 : [op, nick][1]? = some nick := rfl
    have hd : deref st.myusers p = some mu := by
      unfold myuser_find_ext myuser_find mynick_find at hf
      split_ifs at hf
      · exact (heap_find_deref _ _ _ _ hf).1
      · exact (heap_find_deref _ _ _ _ hf).1
    refine ⟨?_, deref_store_self _ _ _ _ hd⟩
    have hc : ¬ (mu.flags &&& env.MU_WAITAUTH = 0
        ∨ metadata_find mu.metadata "private:verify:register:key" = none) := by
      push_neg
      exact ⟨hw, hK⟩
    simp only [ns_cmd_fverify, h0, h1, hf, hop]
    simp [hc, register_done, fverify_register_trace]
  · intro i hi hb
    exact testBit_land_lnot32 _ _ _ hi hb
  · exact metadata_find_delete_none _ _ _ (metadata_find_delete_self _ _)
  · exact metadata_find_delete_self _ _
  · intro k hk1 hk2
    unfold register_done
    simp only
    rw [metadata_find_delete_ne _ _ _ hk2, metadata_find_delete_ne _ _ _ hk1]
  · unfold verify_register_trace
    have hl := hook_events_logins mu.logins p
    unfold hook_events at hl ⊢
    simp only [List.filter_append, hl]
    simp
  · unfold fverify_register_trace
    have hl := hook_events_logins mu.logins p
    unfold hook_events at hl ⊢
    simp only [List.filter_append, hl]
    simp
  · intro parv st1 evs1 hr hfail
    exact (verify_failure_inv env si st parv st1 evs1 hr hfail).2
  · intro parv st1 evs1 hr hfail
    exact (fverify_failure_inv env si st parv st1 evs1 hr hfail).2

/-- C17 at a sample input: the owner verifies the registration of the sample account. -/
theorem register_verified_effects_witness :
    ns_cmd_verify env0 owner st_pending ["REGISTER", "pending", "abc"] =
        some (myuser_write st_pending 0 (register_done env0 pending),
          verify_register_trace env0 owner st_pending 0 pending) ∧
      deref (myuser_write st_pending 0 (register_done env0 pending)).myusers 0
        = some (register_done env0 pending) :=
  (register_verified_effects env0 owner st_pending 0 pending).1 "REGISTER" "pending" "abc"
    "abc" rfl rfl (by decide) (by decide) rfl (by decide)

/-! ## Failure atomicity -/

/-- C21: when VERIFY by the logged-in owner succeeds (REGISTER or EMAILCHG, the key matching
the stored key), FVERIFY of the same operation on the same account, from the same store,
succeeds as well and returns the same store, so the account ends with the same flags, e-mail
and metadata. -/
theorem verify_fverify_agree (env : Env) (si si2 : sourceinfo) (st st1 : State)
    (op nick nick2 key : String) (evs1 : List Event) (p : Nat) (mu : myuser_t)
    (hv : ns_cmd_verify env si st [op, nick, key] = some (st1, evs1))
    (hok : reports_failure evs1 = false)
    (hf : myuser_find env st nick = some (p, mu))
    (hfe : myuser_find_ext env st nick2 = some (p, mu)) :
    ∃ evs2 mu1, ns_cmd_fverify env si2 st [op, nick2] = some (st1, evs2) ∧
      reports_failure evs2 = false ∧
      deref st1.myusers p = some mu1 ∧
      (mu1 = register_done env mu ∨
        ∃ e, metadata_find mu.metadata "private:verify:emailchg:newemail" = some e ∧
          mu1 = emailchg_done mu e) := by
  obtain ⟨op2, nick3, key2, p2, mu2, h0, h1, _, hf2, _, hcase⟩ :=
    verify_success_inv env si st [op, nick, key] st1 evs1 hv hok
  have e0 : op2 = op := by
    have : [op, nick, key][0]? = some op := rfl
    rw [this] at h0
    exact (Option.some.inj h0).symm
  have e1 : nick3 = nick := by
    have : [op, nick, key][1]? = some nick := rfl
    rw [this] at h1
    exact (Option.some.inj h1).symm
  subst e0
  subst e1
  rw [hf] at hf2
  cases hf2
  have hd := (heap_find_deref _ _ _ _ hf).1
  have g0 : [op2, nick2][0]? = some op2 := rfl
  have g1 : [op2, nick2][1]? = some nick2 := rfl
  rcases hcase with ⟨hop, hw, ⟨K, hK, _⟩, rfl, _⟩ | ⟨hnr, hop2, K, e, hK, _, hE, _, rfl⟩
  · have hc : ¬ (mu.flags &&& env.MU_WAITAUTH = 0
        ∨ metadata_find mu.metadata "private:verify:register:key" = none) := by
      push_neg
      exact ⟨hw, by rw [hK]; simp⟩
    refine ⟨fverify_register_trace env st p mu, register_done env mu, ?_, ?_,
      deref_store_self _ _ _ _ hd, Or.inl rfl⟩
    · simp only [ns_cmd_fverify, g0, g1, hfe, hop]
      simp [hc, register_done, fverify_register_trace]
    · simp [reports_failure, fverify_register_trace]
  · have hk : ¬ metadata_find mu.metadata "private:verify:emailchg:key" = none := by
      rw [hK]
      simp
    refine ⟨[Event.logcommand [.CMDLOG_REGISTER]
          ("FVERIFY:EMAILCHG: \x02" ++ mu.name ++ "\x02 (email: \x02" ++ e ++ "\x02)"),
        Event.command_success_nodata ("\x02" ++ e ++ "\x02 has now been verified.")],
      emailchg_done mu e, ?_, ?_, deref_store_self _ _ _ _ hd, Or.inr ⟨e, hE, rfl⟩⟩
    · simp only [ns_cmd_fverify, g0, g1, hfe, hop2, hE]
      simp [hnr, hk, emailchg_done, myuser_set_email]
    · simp [reports_failure]

/-- C21 at sample inputs: the registration of the sample account, verified by the owner and
by force, and its e-mail change likewise. -/
theorem verify_fverify_agree_witness :
    (∃ evs2 mu1, ns_cmd_fverify env0 anon st_pending ["REGISTER", "pending"] =
        some (myuser_write st_pending 0 (register_done env0 pending), evs2) ∧
      reports_failure evs2 = false ∧
      deref (myuser_write st_pending 0 (register_done env0 pending)).myusers 0 = some mu1 ∧
      (mu1 = register_done env0 pending ∨
        ∃ e, metadata_find pending.metadata "private:verify:emailchg:newemail" = some e ∧
          mu1 = emailchg_done pending e)) ∧
    (∃ evs2 mu1, ns_cmd_fverify env0 anon (st_changing "new@x") ["EMAILCHG", "dave"] =
        some (myuser_write (st_changing "new@x") 0
          (emailchg_done (changing "new@x") "new@x"), evs2) ∧
      reports_failure evs2 = false ∧
      deref (myuser_write (st_changing "new@x") 0
        (emailchg_done (changing "new@x") "new@x")).myusers 0 = some mu1 ∧
      (mu1 = register_done env0 (changing "new@x") ∨
        ∃ e, metadata_find (changing "new@x").metadata "private:verify:emailchg:newemail"
            = some e ∧
          mu1 = emailchg_done (changing "new@x") e)) :=
  ⟨verify_fverify_agree env0 owner anon st_pending
      (myuser_write st_pending 0 (register_done env0 pending)) "REGISTER" "pending" "pending"
      "abc" (verify_register_trace env0 owner st_pending 0 pending) 0 pending
      (by decide) (by decide) rfl rfl,
    verify_fverify_agree env0 owner anon (st_changing "new@x")
      (myuser_write (st_changing "new@x") 0 (emailchg_done (changing "new@x") "new@x"))
      "EMAILCHG" "dave" "dave" "k1"
      [Event.logcommand [.CMDLOG_SET] "VERIFY:EMAILCHG: \x02src\x02 (email: \x02new@x\x02)",
        Event.command_success_nodata "\x02new@x\x02 has now been verified."]
      0 (changing "new@x") (by decide) (by decide) rfl rfl⟩

end Atheme
